import Mathlib

set_option maxHeartbeats 4000000
set_option maxRecDepth 8000

/-!
A shallow embedding of the wormhole-chess move engine
(`src/components/ChessboardScene.tsx` together with the board adjacency data
`boardGraph`, an inline copy of which is kept in the repository).
Squares and piece identifiers are the strings the source uses; the mirror
("prime") marker is the ASCII apostrophe, written `\x27` in string literals
below.  JavaScript `Record`/`Map` values are modelled as association lists
looked up by key, `Set` accumulation as duplicate-free append, and the
mutable `moves`/`paths` accumulators of the traversal closures as explicit
state passing.
-/

namespace WormholeChess

/-- The mirror-layer marker: the apostrophe appended to square names of the
second surface. -/
def primeMark : String := "\x27"

/-- The closed direction enumeration of the source (`EntryDir` / keys of the
`Directions` type).  The source direction named "in" is spelled `inw` here
because `in` is reserved in Lean; `dirName` restores the source spelling. -/
inductive Dir where
  | N | E | S | W
  | inw | out | cw | ccw
  | NE | SE | SW | NW
  | idl | idr | od | odl | odr
deriving DecidableEq, BEq, Repr

/-- The string name of a direction, exactly as the source spells it (used in
the `${current}-${dir}` visited keys). -/
def dirName : Dir → String
  | .N => "N"
  | .E => "E"
  | .S => "S"
  | .W => "W"
  | .inw => "in"
  | .out => "out"
  | .cw => "cw"
  | .ccw => "ccw"
  | .NE => "NE"
  | .SE => "SE"
  | .SW => "SW"
  | .NW => "NW"
  | .idl => "idl"
  | .idr => "idr"
  | .od => "od"
  | .odl => "odl"
  | .odr => "odr"

/-- Every direction is listed here (used to bound the visited-key space). -/
def allDirs : List Dir :=
  [.N, .E, .S, .W, .inw, .out, .cw, .ccw, .NE, .SE, .SW, .NW, .idl, .idr, .od, .odl, .odr]

/-- One adjacency row of the board graph: the source `Directions` record
(an optional neighbour per direction; the field for "in" is `inw`). -/
structure Node where
  N : Option String := none
  E : Option String := none
  S : Option String := none
  W : Option String := none
  inw : Option String := none
  out : Option String := none
  cw : Option String := none
  ccw : Option String := none
  NE : Option String := none
  SE : Option String := none
  SW : Option String := none
  NW : Option String := none
  idl : Option String := none
  idr : Option String := none
  od : Option String := none
  odl : Option String := none
  odr : Option String := none
deriving DecidableEq, Repr

/-- Field access of a `Node` by direction (the source `node[dir]`). -/
def nodeGet (n : Node) : Dir → Option String
  | .N => n.N
  | .E => n.E
  | .S => n.S
  | .W => n.W
  | .inw => n.inw
  | .out => n.out
  | .cw => n.cw
  | .ccw => n.ccw
  | .NE => n.NE
  | .SE => n.SE
  | .SW => n.SW
  | .NW => n.NW
  | .idl => n.idl
  | .idr => n.idr
  | .od => n.od
  | .odl => n.odl
  | .odr => n.odr

/-- Association-list lookup by string key (JavaScript `record[key]` /
`map.get(key)`; the source records have unique keys). -/
def lookupStr {α : Type} (m : List (String × α)) (k : String) : Option α :=
  (m.find? (fun p => p.1 == k)).map Prod.snd

/-- Lookup in a direction-keyed table, with the JavaScript
`table[dir] || []` default. -/
def dirLookup (tbl : List (Dir × List Dir)) (d : Dir) : List Dir :=
  ((tbl.find? (fun p => p.1 == d)).map Prod.snd).getD []

/-- Lookup in a direction-to-direction table (`dir in table` guarded access). -/
def dirMapLookup (tbl : List (Dir × Dir)) (d : Dir) : Option Dir :=
  (tbl.find? (fun p => p.1 == d)).map Prod.snd

/-- JavaScript `map.set k v` / `record[k] = v`: replace the value in place if
the key is present, otherwise append the binding. -/
def upsert {α : Type} (m : List (String × α)) (k : String) (v : α) : List (String × α) :=
  match m with
  | [] => [(k, v)]
  | p :: rest => if p.1 == k then (k, v) :: rest else p :: upsert rest k v

/-- JavaScript `delete record[k]` (keys are unique, so removing the first
occurrence removes the binding). -/
def eraseKey {α : Type} (m : List (String × α)) (k : String) : List (String × α) :=
  match m with
  | [] => []
  | p :: rest => if p.1 == k then rest else p :: eraseKey rest k

/-- JavaScript `s.startsWith(pre)` (character-list based so that concrete
applications reduce definitionally). -/
def strStartsWith (s pre : String) : Bool :=
  pre.toList.isPrefixOf s.toList

/-- JavaScript `s.endsWith(suffix)` (character-list based so that concrete
applications reduce definitionally). -/
def strEndsWith (s sfx : String) : Bool :=
  sfx.toList.reverse.isPrefixOf s.toList.reverse

/-- Does `sub` occur as a contiguous run inside the character list? -/
def includesAux (sub : List Char) : List Char → Bool
  | [] => sub.isPrefixOf []
  | c :: cs => sub.isPrefixOf (c :: cs) || includesAux sub cs

/-- JavaScript `s.includes(sub)`. -/
def strIncludes (s sub : String) : Bool :=
  includesAux sub.toList s.toList

/-- JavaScript `s[i]`: the character at an index, if any. -/
def charAt (s : String) (i : Nat) : Option Char :=
  s.toList.get? i

/-- JavaScript `parseInt` on a one-character rank string: a digit value, or
none (NaN) otherwise. -/
def digitVal (c : Char) : Option Nat :=
  if c.isDigit then some (c.toNat - 48) else none

/-- Drop the first prime marker from a character list. -/
def removePrimeAux : List Char → List Char
  | [] => []
  | c :: cs => if c = '\x27' then cs else c :: removePrimeAux cs

/-- Removal of the first prime marker of a string: the source
`square.replace(primeMarker, "")` (square names carry at most one marker). -/
def replaceFirstPrime (s : String) : String :=
  String.mk (removePrimeAux s.toList)
/-- Rows 1 onward of the authored adjacency data (split for elaboration speed). -/
def graphTableA : List (String × Node) := [
  ("a1", { N := some "a2", E := some "b1", NE := some "b2" }),
  ("a2", { N := some "a3", E := some "b2", S := some "a1", NE := some "b3", SE := some "b1" }),
  ("a3", { N := some "a4", E := some "b3", S := some "a2", NE := some "b4", SE := some "b2" }),
  ("a4", { N := some "a5", E := some "b4", S := some "a3", NE := some "b5", SE := some "b3" }),
  ("a5", { N := some "a6", E := some "b5", S := some "a4", NE := some "b6", SE := some "b4" }),
  ("a6", { N := some "a7", E := some "b6", S := some "a5", NE := some "b7", SE := some "b5" }),
  ("a7", { N := some "a8", E := some "b7", S := some "a6", NE := some "b8", SE := some "b6" }),
  ("a8", { E := some "b8", S := some "a7", SE := some "b7" }),
  ("b1", { N := some "b2", E := some "c1", W := some "a1", NE := some "c2", NW := some "a2" }),
  ("b2", { N := some "b3", E := some "c2", S := some "b1", W := some "a2", NE := some "c3", SE := some "c1", NW := some "a3", SW := some "a1" }),
  ("b3", { N := some "b4", E := some "c3", S := some "b2", W := some "a3", NE := some "c4", SE := some "c2", NW := some "a4", SW := some "a2" }),
  ("b4", { N := some "b5", E := some "c4", S := some "b3", W := some "a4", NE := some "c5", SE := some "c3", NW := some "a5", SW := some "a3" }),
  ("b5", { N := some "b6", E := some "c5", S := some "b4", W := some "a5", NE := some "c6", SE := some "c4", NW := some "a6", SW := some "a4" }),
  ("b6", { N := some "b7", E := some "c6", S := some "b5", W := some "a6", NE := some "c7", SE := some "c5", NW := some "a7", SW := some "a5" }),
  ("b7", { N := some "b8", E := some "c7", S := some "b6", W := some "a7", NE := some "c8", SE := some "c6", NW := some "a8", SW := some "a6" }),
  ("b8", { E := some "c8", S := some "b7", W := some "a8", SE := some "c7", SW := some "a7" }),
  ("c1", { N := some "c2", E := some "d1", W := some "b1", NE := some "d2", NW := some "b2" }),
  ("c2", { N := some "c3", E := some "d2", S := some "c1", W := some "b2", NE := some "d3", SE := some "d1", NW := some "b3", SW := some "b1" }),
  ("c3", { N := some "c4", E := some "d3", S := some "c2", W := some "b3", inw := some "x1", cw := some "c4", ccw := some "d3", SW := some "b2", NW := some "b4", SE := some "d2", idl := some "x2", idr := some "d4", odl := some "d2", od := some "b2", odr := some "b4" }),
  ("c4", { N := some "c5", E := some "x2", S := some "c3", W := some "b4", inw := some "x2", cw := some "c5", ccw := some "c3", SW := some "b3", NW := some "b5", NE := some "x3", SE := some "x1", idl := some "x3", idr := some "x1", odl := some "b3", odr := some "b5" }),
  ("c5", { N := some "c6", E := some "x3", S := some "c4", W := some "b5", inw := some "x3", cw := some "c6", ccw := some "c4", SW := some "b4", NW := some "b6", NE := some "x4", SE := some "x2", idl := some "x4", idr := some "x2", odl := some "b4", odr := some "b6" }),
  ("c6", { N := some "c7", E := some "d6", S := some "c5", W := some "b6", inw := some "x4", cw := some "d6", ccw := some "c5", SW := some "b5", NW := some "b7", NE := some "d7", idl := some "d5", idr := some "x3", odl := some "b5", od := some "b7", odr := some "d7" }),
  ("c7", { N := some "c8", E := some "d7", S := some "c6", W := some "b7", NW := some "b8", SW := some "b6", NE := some "d8", SE := some "d6" }),
  ("c8", { E := some "d8", S := some "c7", W := some "b8", SW := some "b7", SE := some "d7" }),
  ("x1", { out := some "c3", cw := some "x2", inw := some "x1\x27", ccw := some "d4", idl := some "x2\x27", idr := some "d4\x27", odl := some "d3", odr := some "c4" }),
  ("x2", { out := some "c4", cw := some "x3", inw := some "x2\x27", ccw := some "x1", idl := some "x3\x27", idr := some "x1\x27", odl := some "c3", odr := some "c5" }),
  ("x3", { out := some "c5", cw := some "x4", inw := some "x3\x27", ccw := some "x2", idl := some "x4\x27", idr := some "x2\x27", odl := some "c4", odr := some "c6" }),
  ("x4", { out := some "c6", cw := some "d5", inw := some "x4\x27", ccw := some "x3", idl := some "d5\x27", idr := some "x3\x27", odl := some "c5", odr := some "d6" }),
  ("d1", { N := some "d2", E := some "e1", W := some "c1", NE := some "e2", NW := some "c2" }),
  ("d2", { N := some "d3", E := some "e2", S := some "d1", W := some "c2", NE := some "e3", SE := some "e1", NW := some "c3", SW := some "c1" }),
  ("d3", { N := some "d4", E := some "e3", S := some "d2", W := some "c3", inw := some "d4", out := some "d2", cw := some "c3", ccw := some "e3", NE := some "e4", SE := some "e2", NW := some "x1", SW := some "c2", idl := some "x1", idr := some "e4", odl := some "e2", odr := some "c2" }),
  ("d4", { N := some "d4\x27", S := some "d3", inw := some "d4\x27", out := some "d3", cw := some "x1", ccw := some "e4", NE := some "e4\x27", SE := some "e3", NW := some "x1\x27", SW := some "c3", idl := some "x1\x27", idr := some "e4\x27", odl := some "e3", odr := some "c3" }),
  ("d5", { N := some "d6", S := some "d5\x27", inw := some "d5\x27", out := some "d6", cw := some "e5", ccw := some "x4", NE := some "e6", SE := some "e5\x27", NW := some "c6", SW := some "x4\x27", idl := some "e5\x27", idr := some "x4\x27", odl := some "c6", odr := some "e6" }),
  ("d6", { N := some "d7", E := some "e6", S := some "d5", W := some "c6", inw := some "d5", out := some "d7", cw := some "e6", ccw := some "c6", NE := some "e7", SE := some "e5", NW := some "c7", SW := some "x4", idl := some "e5", idr := some "x4", odl := some "c7", odr := some "e7" }),
  ("d7", { N := some "d8", E := some "e7", S := some "d6", W := some "c7", NE := some "e8", SE := some "e6", NW := some "c8", SW := some "c6" }),
  ("d8", { E := some "e8", S := some "d7", W := some "c8", SW := some "c7", SE := some "e7" })
]

/-- Rows 37 onward of the authored adjacency data (split for elaboration speed). -/
def graphTableB : List (String × Node) := [
  ("e1", { N := some "e2", E := some "f1", W := some "d1", NE := some "f2", NW := some "d2" }),
  ("e2", { N := some "e3", E := some "f2", S := some "e1", W := some "d2", NE := some "f3", SE := some "f1", NW := some "d3", SW := some "d1" }),
  ("e3", { N := some "e4", E := some "f3", S := some "e2", W := some "d3", inw := some "e4", out := some "e2", cw := some "d3", ccw := some "f3", NW := some "d4", NE := some "y1", SE := some "f2", SW := some "d2", idl := some "d4", idr := some "y1", odl := some "f2", odr := some "d2" }),
  ("e4", { N := some "e4\x27", S := some "e3", inw := some "e4\x27", out := some "e3", cw := some "d4", ccw := some "y1", NE := some "y1\x27", NW := some "d4\x27", SE := some "f3", SW := some "d3", idl := some "d4\x27", idr := some "y1\x27", odl := some "f3", odr := some "d3" }),
  ("e5", { N := some "e6", S := some "e5\x27", inw := some "e5\x27", out := some "e6", cw := some "y4", ccw := some "d5", NE := some "f6", SE := some "y4\x27", NW := some "d6", SW := some "d5\x27", idl := some "y4\x27", idr := some "d5\x27", odl := some "d6", odr := some "f6" }),
  ("e6", { N := some "e7", E := some "f6", S := some "e5", W := some "d6", inw := some "e5", out := some "e7", cw := some "f6", ccw := some "d6", NE := some "f7", SE := some "y4", NW := some "d7", SW := some "d5", idl := some "y4", idr := some "d5", odl := some "d7", odr := some "f7" }),
  ("e7", { N := some "e8", E := some "f7", S := some "e6", W := some "d7", NE := some "f8", SE := some "f6", NW := some "d8", SW := some "d6" }),
  ("e8", { E := some "f8", S := some "e7", W := some "d8", SW := some "d7", SE := some "f7" }),
  ("y1", { inw := some "y1\x27", out := some "f3", cw := some "e4", ccw := some "y2", idl := some "e4\x27", idr := some "y2\x27", odl := some "f4", odr := some "e3" }),
  ("y2", { inw := some "y2\x27", out := some "f4", cw := some "y1", ccw := some "y3", idl := some "y1\x27", idr := some "y3\x27", odl := some "f5", odr := some "f3" }),
  ("y3", { inw := some "y3\x27", out := some "f5", cw := some "y2", ccw := some "y4", idl := some "y2\x27", idr := some "y4\x27", odl := some "f6", odr := some "f4" }),
  ("y4", { inw := some "y4\x27", out := some "f6", cw := some "y3", ccw := some "e5", idl := some "y3\x27", idr := some "e5\x27", odl := some "e6", odr := some "f5" }),
  ("f1", { N := some "f2", E := some "g1", W := some "e1", NE := some "g2", NW := some "e2" }),
  ("f2", { N := some "f3", E := some "g2", S := some "f1", W := some "e2", NE := some "g3", SE := some "g1", NW := some "e3", SW := some "e1" }),
  ("f3", { N := some "f4", E := some "g3", S := some "f2", W := some "e3", inw := some "y1", cw := some "e3", ccw := some "f4", NE := some "g4", SE := some "g2", SW := some "e2", idl := some "e4", idr := some "y2", odl := some "g4", od := some "g2", odr := some "e2" }),
  ("f4", { N := some "f5", S := some "f3", E := some "g4", W := some "y2", inw := some "y2", out := some "g4", cw := some "f3", ccw := some "f5", NE := some "g5", SE := some "g3", SW := some "y1", NW := some "y3", idl := some "y1", idr := some "y3", odl := some "g5", odr := some "g3" }),
  ("f5", { N := some "f6", S := some "f4", E := some "g5", W := some "y3", inw := some "y3", out := some "g5", cw := some "f4", ccw := some "f6", NE := some "g6", SE := some "g4", SW := some "y2", NW := some "y4", idl := some "y2", idr := some "y4", odl := some "g6", odr := some "g4" }),
  ("f6", { N := some "f7", E := some "g6", S := some "f5", W := some "e6", inw := some "y4", cw := some "f5", ccw := some "e6", NE := some "g7", SE := some "g5", SW := some "y3", idl := some "y3", idr := some "e5", odl := some "e7", od := some "g7", odr := some "g5" }),
  ("f7", { N := some "f8", E := some "g7", S := some "f6", W := some "e7", NE := some "g8", SE := some "g6", NW := some "e8", SW := some "e6" }),
  ("f8", { E := some "g8", S := some "f7", W := some "e8", SW := some "e7", SE := some "g7" }),
  ("g1", { N := some "g2", E := some "h1", W := some "f1", NE := some "h2", NW := some "f2" }),
  ("g2", { N := some "g3", E := some "h2", S := some "g1", W := some "f2", NE := some "h3", SE := some "h1", NW := some "f3", SW := some "f1" }),
  ("g3", { N := some "g4", E := some "h3", S := some "g2", W := some "f3", NE := some "h4", SE := some "h2", NW := some "f4", SW := some "f2" }),
  ("g4", { N := some "g5", E := some "h4", S := some "g3", W := some "f4", NE := some "h5", SE := some "h3", NW := some "f5", SW := some "f3" }),
  ("g5", { N := some "g6", E := some "h5", S := some "g4", W := some "f5", NE := some "h6", SE := some "h4", NW := some "f6", SW := some "f4" }),
  ("g6", { N := some "g7", E := some "h6", S := some "g5", W := some "f6", NE := some "h7", SE := some "h5", NW := some "f7", SW := some "f5" }),
  ("g7", { N := some "g8", E := some "h7", S := some "g6", W := some "f7", NE := some "h8", SE := some "h6", NW := some "f8", SW := some "f6" }),
  ("g8", { E := some "h8", S := some "g7", W := some "f8", SW := some "f7", SE := some "h7" }),
  ("h1", { N := some "h2", W := some "g1", NW := some "g2" }),
  ("h2", { N := some "h3", S := some "h1", W := some "g2", SE := some "h1", NW := some "g3", SW := some "g1" }),
  ("h3", { N := some "h4", S := some "h2", W := some "g3", SE := some "h2", NW := some "g4", SW := some "g2" }),
  ("h4", { N := some "h5", S := some "h3", W := some "g4", SE := some "h3", NW := some "g5", SW := some "g3" }),
  ("h5", { N := some "h6", S := some "h4", W := some "g5", SE := some "h4", NW := some "g6", SW := some "g4" }),
  ("h6", { N := some "h7", S := some "h5", W := some "g6", SE := some "h5", NW := some "g7", SW := some "g5" }),
  ("h7", { N := some "h8", S := some "h6", W := some "g7", SE := some "h6", NW := some "g8", SW := some "g6" }),
  ("h8", { S := some "h7", W := some "g8", SW := some "g7" })
]

/-- Rows 73 onward of the authored adjacency data (split for elaboration speed). -/
def graphTableC : List (String × Node) := [
  ("a1\x27", { N := some "a2\x27", E := some "b1\x27", NE := some "b2\x27" }),
  ("a2\x27", { N := some "a3\x27", E := some "b2\x27", S := some "a1\x27", NE := some "b3\x27", SE := some "b1\x27" }),
  ("a3\x27", { N := some "a4\x27", E := some "b3\x27", S := some "a2\x27", NE := some "b4\x27", SE := some "b2\x27" }),
  ("a4\x27", { N := some "a5\x27", E := some "b4\x27", S := some "a3\x27", NE := some "b5\x27", SE := some "b3\x27" }),
  ("a5\x27", { N := some "a6\x27", E := some "b5\x27", S := some "a4\x27", NE := some "b6\x27", SE := some "b4\x27" }),
  ("a6\x27", { N := some "a7\x27", E := some "b6\x27", S := some "a5\x27", NE := some "b7\x27", SE := some "b5\x27" }),
  ("a7\x27", { N := some "a8\x27", E := some "b7\x27", S := some "a6\x27", NE := some "b8\x27", SE := some "b6\x27" }),
  ("a8\x27", { E := some "b8\x27", S := some "a7\x27", SE := some "b7\x27" }),
  ("b1\x27", { N := some "b2\x27", E := some "c1\x27", W := some "a1\x27", NE := some "c2\x27", NW := some "a2\x27" }),
  ("b2\x27", { N := some "b3\x27", E := some "c2\x27", S := some "b1\x27", W := some "a2\x27", NE := some "c3\x27", SE := some "c1\x27", NW := some "a3\x27", SW := some "a1\x27" }),
  ("b3\x27", { N := some "b4\x27", E := some "c3\x27", S := some "b2\x27", W := some "a3\x27", NE := some "c4\x27", SE := some "c2\x27", NW := some "a4\x27", SW := some "a2\x27" }),
  ("b4\x27", { N := some "b5\x27", E := some "c4\x27", S := some "b3\x27", W := some "a4\x27", NE := some "c5\x27", SE := some "c3\x27", NW := some "a5\x27", SW := some "a3\x27" }),
  ("b5\x27", { N := some "b6\x27", E := some "c5\x27", S := some "b4\x27", W := some "a5\x27", NE := some "c6\x27", SE := some "c4\x27", NW := some "a6\x27", SW := some "a4\x27" }),
  ("b6\x27", { N := some "b7\x27", E := some "c6\x27", S := some "b5\x27", W := some "a6\x27", NE := some "c7\x27", SE := some "c5\x27", NW := some "a7\x27", SW := some "a5\x27" }),
  ("b7\x27", { N := some "b8\x27", E := some "c7\x27", S := some "b6\x27", W := some "a7\x27", NE := some "c8\x27", SE := some "c6\x27", NW := some "a8\x27", SW := some "a6\x27" }),
  ("b8\x27", { E := some "c8\x27", S := some "b7\x27", W := some "a8\x27", SE := some "c7\x27", SW := some "a7\x27" }),
  ("c1\x27", { N := some "c2\x27", E := some "d1\x27", W := some "b1\x27", NE := some "d2\x27", NW := some "b2\x27" }),
  ("c2\x27", { N := some "c3\x27", E := some "d2\x27", S := some "c1\x27", W := some "b2\x27", NE := some "d3\x27", SE := some "d1\x27", NW := some "b3\x27", SW := some "b1\x27" }),
  ("c3\x27", { N := some "c4\x27", E := some "d3\x27", S := some "c2\x27", W := some "b3\x27", inw := some "x1\x27", cw := some "c4\x27", ccw := some "d3\x27", NW := some "b4\x27", SW := some "b2\x27", SE := some "d2\x27", idl := some "d4\x27", idr := some "x2\x27", odl := some "b4\x27", od := some "b2\x27", odr := some "d2\x27" }),
  ("c4\x27", { N := some "c5\x27", E := some "x2\x27", S := some "c3\x27", W := some "b4\x27", inw := some "x2\x27", cw := some "c5\x27", ccw := some "c3\x27", NW := some "b5\x27", SW := some "b3\x27", NE := some "x3\x27", SE := some "x1\x27", idl := some "x1\x27", idr := some "x3\x27", odl := some "b5\x27", odr := some "b3\x27" }),
  ("c5\x27", { N := some "c6\x27", E := some "x3\x27", S := some "c4\x27", W := some "b5\x27", inw := some "x3\x27", cw := some "c6\x27", ccw := some "c4\x27", NW := some "b6\x27", SW := some "b4\x27", NE := some "x4\x27", SE := some "x2\x27", idl := some "x2\x27", idr := some "x4\x27", odl := some "b6\x27", odr := some "b4\x27" }),
  ("c6\x27", { N := some "c7\x27", E := some "d6\x27", S := some "c5\x27", W := some "b6\x27", inw := some "x4\x27", cw := some "d6\x27", ccw := some "c5\x27", NE := some "d7\x27", SW := some "b5\x27", NW := some "b7\x27", idl := some "x3\x27", idr := some "d5\x27", odl := some "d7\x27", od := some "b7\x27", odr := some "b5\x27" }),
  ("c7\x27", { N := some "c8\x27", E := some "d7\x27", S := some "c6\x27", W := some "b7\x27", NE := some "d8\x27", NW := some "b8\x27", SW := some "b6\x27", SE := some "d6\x27" }),
  ("c8\x27", { E := some "d8\x27", S := some "c7\x27", W := some "b8\x27", SW := some "b7\x27", SE := some "d7\x27" }),
  ("x1\x27", { out := some "c3\x27", cw := some "x2\x27", inw := some "x1", ccw := some "d4\x27", idl := some "d4", idr := some "x2", odl := some "c4\x27", odr := some "d3\x27" }),
  ("x2\x27", { out := some "c4\x27", cw := some "x3\x27", inw := some "x2", ccw := some "x1\x27", idl := some "x1", idr := some "x3", odl := some "c5\x27", odr := some "c3\x27" }),
  ("x3\x27", { out := some "c5\x27", cw := some "x4\x27", inw := some "x3", ccw := some "x2\x27", idl := some "x2", idr := some "x4", odl := some "c6\x27", odr := some "c4\x27" }),
  ("x4\x27", { out := some "c6\x27", cw := some "d5\x27", inw := some "x4", ccw := some "x3\x27", idl := some "x3", idr := some "d5", odl := some "d5\x27", odr := some "c5\x27" }),
  ("d1\x27", { N := some "d2\x27", E := some "e1\x27", W := some "c1\x27", NE := some "e2\x27", NW := some "c2\x27" }),
  ("d2\x27", { N := some "d3\x27", E := some "e2\x27", S := some "d1\x27", W := some "c2\x27", NE := some "e3\x27", SE := some "e1\x27", NW := some "c3\x27", SW := some "c1\x27" }),
  ("d3\x27", { N := some "d4\x27", E := some "e3\x27", S := some "d2\x27", W := some "c3\x27", inw := some "d4\x27", out := some "d2\x27", cw := some "c3\x27", ccw := some "e3\x27", NE := some "e4\x27", SE := some "e2\x27", NW := some "x1\x27", SW := some "c2\x27", idl := some "e4\x27", idr := some "x1\x27", odl := some "c2\x27", odr := some "e2\x27" }),
  ("d4\x27", { N := some "d4", S := some "d3\x27", inw := some "d4", out := some "d3\x27", cw := some "x1\x27", ccw := some "e4\x27", NE := some "e5", SE := some "e3", NW := some "x1", SW := some "c3\x27", idl := some "e5", idr := some "x1", odl := some "c3\x27", odr := some "e3\x27" }),
  ("d5\x27", { N := some "d6\x27", S := some "d5", inw := some "d5", out := some "d6\x27", cw := some "e5\x27", ccw := some "x4\x27", NE := some "e6\x27", SE := some "e5", NW := some "c6\x27", SW := some "x4", idl := some "x4", idr := some "e5", odl := some "e6\x27", odr := some "c6\x27" }),
  ("d6\x27", { N := some "d7\x27", E := some "e6\x27", S := some "d5\x27", W := some "c6\x27", inw := some "d5\x27", out := some "d7\x27", cw := some "e6\x27", ccw := some "c6\x27", NE := some "e7\x27", SE := some "e5\x27", NW := some "c7\x27", SW := some "x4\x27", idl := some "x4\x27", idr := some "e5\x27", odl := some "e7\x27", odr := some "c7\x27" }),
  ("d7\x27", { N := some "d8\x27", E := some "e7\x27", S := some "d6\x27", W := some "c7\x27", NE := some "e8\x27", SE := some "e6\x27", NW := some "c8\x27", SW := some "c6\x27" }),
  ("d8\x27", { E := some "e8\x27", S := some "d7\x27", W := some "c8\x27", SW := some "c7\x27", SE := some "e7\x27" })
]

/-- Rows 109 onward of the authored adjacency data (split for elaboration speed). -/
def graphTableD : List (String × Node) := [
  ("e1\x27", { N := some "e2\x27", E := some "f1\x27", W := some "d1\x27", NE := some "f2\x27", NW := some "d2\x27" }),
  ("e2\x27", { N := some "e3\x27", E := some "f2\x27", S := some "e1\x27", W := some "d2\x27", NE := some "f3\x27", SE := some "f1\x27", NW := some "d3\x27", SW := some "d1\x27" }),
  ("e3\x27", { N := some "e4\x27", E := some "f3\x27", S := some "e2\x27", W := some "d3\x27", inw := some "e4\x27", out := some "e2\x27", cw := some "d3\x27", ccw := some "f3\x27", NE := some "y1\x27", SE := some "f2\x27", NW := some "d4\x27", SW := some "d2\x27", idl := some "y1\x27", idr := some "d4\x27", odl := some "d2\x27", odr := some "f2\x27" }),
  ("e4\x27", { N := some "e4", S := some "e3\x27", inw := some "e4", out := some "e3\x27", cw := some "d4\x27", ccw := some "y1\x27", NE := some "y1", NW := some "d4", SE := some "f3\x27", SW := some "d3\x27", idl := some "y1", idr := some "d4", odl := some "d3\x27", odr := some "f3\x27" }),
  ("e5\x27", { N := some "e6\x27", S := some "e5", inw := some "e5", out := some "e6\x27", cw := some "y4\x27", ccw := some "d5\x27", NE := some "f6\x27", SE := some "y4", NW := some "d6\x27", SW := some "d5", idl := some "d5", idr := some "y4", odl := some "f6\x27", odr := some "d6\x27" }),
  ("e6\x27", { N := some "e7\x27", E := some "f6\x27", S := some "e5\x27", W := some "d6\x27", inw := some "e5\x27", out := some "e7\x27", cw := some "f6\x27", ccw := some "d6\x27", NE := some "f7\x27", SE := some "y4\x27", NW := some "d7\x27", SW := some "d5\x27", idl := some "d5\x27", idr := some "y4\x27", odl := some "f7\x27", odr := some "d7\x27" }),
  ("e7\x27", { N := some "e8\x27", E := some "f7\x27", S := some "e6\x27", W := some "d7\x27", NE := some "f8\x27", SE := some "f6\x27", NW := some "d8\x27", SW := some "d6\x27" }),
  ("e8\x27", { E := some "f8\x27", S := some "e7\x27", W := some "d8\x27", SW := some "d7\x27", SE := some "f7\x27" }),
  ("y1\x27", { inw := some "y1", out := some "f3\x27", cw := some "e4\x27", ccw := some "y2\x27", idl := some "y2", idr := some "e4", odl := some "e3\x27", odr := some "f4\x27" }),
  ("y2\x27", { inw := some "y2", out := some "f4\x27", cw := some "y1\x27", ccw := some "y3\x27", idl := some "y3", idr := some "y1", odl := some "f3\x27", odr := some "f5\x27" }),
  ("y3\x27", { inw := some "y3", out := some "f5\x27", cw := some "y2\x27", ccw := some "y4\x27", idl := some "y4", idr := some "y2", odl := some "f4\x27", odr := some "f6\x27" }),
  ("y4\x27", { inw := some "y4", out := some "f6\x27", cw := some "y3\x27", ccw := some "e5\x27", idl := some "e5", idr := some "y3", odl := some "f5\x27", odr := some "e6\x27" }),
  ("f1\x27", { N := some "f2\x27", E := some "g1\x27", W := some "e1\x27", NE := some "g2\x27", NW := some "e2\x27" }),
  ("f2\x27", { N := some "f3\x27", E := some "g2\x27", S := some "f1\x27", W := some "e2\x27", NE := some "g3\x27", SE := some "g1\x27", NW := some "e3\x27", SW := some "e1\x27" }),
  ("f3\x27", { N := some "f4\x27", E := some "g3\x27", S := some "f2\x27", W := some "e3\x27", inw := some "y1\x27", cw := some "e3\x27", ccw := some "f4\x27", NE := some "g4\x27", SE := some "g2\x27", SW := some "e2\x27", idl := some "y2\x27", idr := some "e4\x27", odl := some "e2\x27", od := some "g2\x27", odr := some "g4\x27" }),
  ("f4\x27", { N := some "f5\x27", S := some "f3\x27", E := some "g4\x27", W := some "y2\x27", inw := some "y2\x27", out := some "g4\x27", cw := some "f3\x27", ccw := some "f5\x27", NE := some "g5\x27", SE := some "g3\x27", SW := some "y1\x27", NW := some "y3\x27", idl := some "y3\x27", idr := some "y1\x27", odl := some "g3\x27", odr := some "g5\x27" }),
  ("f5\x27", { N := some "f6\x27", S := some "f4\x27", E := some "g5\x27", W := some "y3\x27", inw := some "y3\x27", out := some "g5\x27", cw := some "f4\x27", ccw := some "f6\x27", NE := some "g6\x27", SE := some "g4\x27", SW := some "y2\x27", NW := some "y4\x27", idl := some "y4\x27", idr := some "y2\x27", odl := some "g4\x27", odr := some "g6\x27" }),
  ("f6\x27", { N := some "f7\x27", E := some "g6\x27", S := some "f5\x27", W := some "e6\x27", inw := some "y4\x27", cw := some "f5\x27", ccw := some "e6\x27", NE := some "g7\x27", SE := some "g5\x27", NW := some "e7\x27", idl := some "e5\x27", idr := some "y3\x27", odl := some "g5\x27", od := some "g7\x27", odr := some "e7\x27" }),
  ("f7\x27", { N := some "f8\x27", E := some "g7\x27", S := some "f\x276", W := some "e7\x27", NE := some "g8\x27", SE := some "g6\x27", NW := some "e8\x27", SW := some "e6\x27" }),
  ("f8\x27", { E := some "g8\x27", S := some "f7\x27", W := some "e8\x27", SW := some "e7\x27", SE := some "g7\x27" }),
  ("g1\x27", { N := some "g2\x27", E := some "h1\x27", W := some "f1\x27", NE := some "h2\x27", NW := some "f2\x27" }),
  ("g2\x27", { N := some "g3\x27", E := some "h2\x27", S := some "g1\x27", W := some "f2\x27", NE := some "h3\x27", SE := some "h1\x27", NW := some "f3\x27", SW := some "f1\x27" }),
  ("g3\x27", { N := some "g4\x27", E := some "h3\x27", S := some "g2\x27", W := some "f3\x27", NE := some "h4\x27", SE := some "h2\x27", NW := some "f4\x27", SW := some "f2\x27" }),
  ("g4\x27", { N := some "g5\x27", E := some "h4\x27", S := some "g3\x27", W := some "f4\x27", NE := some "h5\x27", SE := some "h3\x27", NW := some "f5\x27", SW := some "f3\x27" }),
  ("g5\x27", { N := some "g6\x27", E := some "h5\x27", S := some "g4\x27", W := some "f5\x27", NE := some "h6\x27", SE := some "h4\x27", NW := some "f6\x27", SW := some "f4\x27" }),
  ("g6\x27", { N := some "g7\x27", E := some "h6\x27", S := some "g5\x27", W := some "f6\x27", NE := some "h7\x27", SE := some "h5\x27", NW := some "f7\x27", SW := some "f5\x27" }),
  ("g7\x27", { N := some "g8\x27", E := some "h7\x27", S := some "g6\x27", W := some "f7\x27", NE := some "h8\x27", SE := some "h6\x27", NW := some "f8\x27", SW := some "f6\x27" }),
  ("g8\x27", { E := some "h8\x27", S := some "g7\x27", W := some "f8\x27", SW := some "f7\x27", SE := some "h7\x27" }),
  ("h1\x27", { N := some "h2\x27", W := some "g1\x27", NW := some "g2\x27" }),
  ("h2\x27", { N := some "h3\x27", S := some "h1\x27", W := some "g2\x27", SE := some "h1\x27", NW := some "g3\x27", SW := some "g1\x27" }),
  ("h3\x27", { N := some "h4\x27", S := some "h2\x27", W := some "g3\x27", SE := some "h2\x27", NW := some "g4\x27", SW := some "g2\x27" }),
  ("h4\x27", { N := some "h5\x27", S := some "h3\x27", W := some "g4\x27", SE := some "h3\x27", NW := some "g5\x27", SW := some "g3\x27" }),
  ("h5\x27", { N := some "h6\x27", S := some "h4\x27", W := some "g5\x27", SE := some "h4\x27", NW := some "g6\x27", SW := some "g4\x27" }),
  ("h6\x27", { N := some "h7\x27", S := some "h5\x27", W := some "g6\x27", SE := some "h5\x27", NW := some "g7\x27", SW := some "g5\x27" }),
  ("h7\x27", { N := some "h8\x27", S := some "h6\x27", W := some "g7\x27", SE := some "h6\x27", NW := some "g8\x27", SW := some "g6\x27" }),
  ("h8\x27", { S := some "h7\x27", W := some "g8\x27", SW := some "g7\x27" })
]

/-- The authored board adjacency table (the source constant `boardGraph` of
`WormholeTopology`), one entry per square; a direction absent from the entry is `none`. -/
def graphTable : List (String × Node) := graphTableA ++ graphTableB ++ graphTableC ++ graphTableD

/-- Per-square out-direction override of the orthogonal engine (source `outDir` of `calculateOrthogonalMoves`; the knight engine re-declares an identical table). -/
def lineOutDir : List (String × Dir) := [
  ("c4", Dir.W),
  ("c5", Dir.W),
  ("d3", Dir.S),
  ("e3", Dir.S),
  ("d6", Dir.N),
  ("e6", Dir.N),
  ("f4", Dir.E),
  ("f5", Dir.E),
  ("c4\x27", Dir.W),
  ("c5\x27", Dir.W),
  ("d3\x27", Dir.S),
  ("e3\x27", Dir.S),
  ("d6\x27", Dir.N),
  ("e6\x27", Dir.N),
  ("f4\x27", Dir.E),
  ("f5\x27", Dir.E)
]

/-- Per-square in-direction override of the orthogonal engine (source `inDir` of `calculateOrthogonalMoves`; the knight engine re-declares an identical table). -/
def lineInDir : List (String × Dir) := [
  ("c4", Dir.E),
  ("c5", Dir.E),
  ("d3", Dir.N),
  ("e3", Dir.N),
  ("d6", Dir.S),
  ("e6", Dir.S),
  ("f4", Dir.W),
  ("f5", Dir.W),
  ("c4\x27", Dir.E),
  ("c5\x27", Dir.E),
  ("d3\x27", Dir.N),
  ("e3\x27", Dir.N),
  ("d6\x27", Dir.S),
  ("e6\x27", Dir.S),
  ("f4\x27", Dir.W),
  ("f5\x27", Dir.W)
]

/-- Per-square diagonal in-remap table (source `inDir` of `calculateDiagonalMoves`). -/
def diagInDir : List (String × List (Dir × Dir)) := [
  ("c4", [(Dir.NE, Dir.idl), (Dir.SE, Dir.idr)]),
  ("c5", [(Dir.NE, Dir.idl), (Dir.SE, Dir.idr)]),
  ("d3", [(Dir.NW, Dir.idl), (Dir.NE, Dir.idr)]),
  ("d6", [(Dir.SE, Dir.idl), (Dir.SW, Dir.idr)]),
  ("e3", [(Dir.NW, Dir.idl), (Dir.NE, Dir.idr)]),
  ("e6", [(Dir.SE, Dir.idl), (Dir.SW, Dir.idr)]),
  ("f4", [(Dir.SW, Dir.idl), (Dir.NW, Dir.idr)]),
  ("f5", [(Dir.SW, Dir.idl), (Dir.NW, Dir.idr)]),
  ("c4\x27", [(Dir.NE, Dir.idr), (Dir.SE, Dir.idl)]),
  ("c5\x27", [(Dir.NE, Dir.idr), (Dir.SE, Dir.idl)]),
  ("d3\x27", [(Dir.NW, Dir.idr), (Dir.NE, Dir.idl)]),
  ("d6\x27", [(Dir.SE, Dir.idr), (Dir.SW, Dir.idl)]),
  ("e3\x27", [(Dir.NW, Dir.idr), (Dir.NE, Dir.idl)]),
  ("e6\x27", [(Dir.SE, Dir.idr), (Dir.SW, Dir.idl)]),
  ("f4\x27", [(Dir.SW, Dir.idr), (Dir.NW, Dir.idl)]),
  ("f5\x27", [(Dir.SW, Dir.idr), (Dir.NW, Dir.idl)])
]

/-- Per-square diagonal out-remap table (source `outDir` of `calculateDiagonalMoves`). -/
def diagOutDir : List (String × List (Dir × Dir)) := [
  ("c4", [(Dir.odl, Dir.SW), (Dir.odr, Dir.NW)]),
  ("c5", [(Dir.odl, Dir.SW), (Dir.odr, Dir.NW)]),
  ("d3", [(Dir.odl, Dir.SE), (Dir.odr, Dir.SW)]),
  ("d6", [(Dir.odl, Dir.NW), (Dir.odr, Dir.NE)]),
  ("e3", [(Dir.odl, Dir.SE), (Dir.odr, Dir.SW)]),
  ("e6", [(Dir.odl, Dir.NW), (Dir.odr, Dir.NE)]),
  ("f4", [(Dir.odl, Dir.NE), (Dir.odr, Dir.SE)]),
  ("f5", [(Dir.odl, Dir.NE), (Dir.odr, Dir.SE)]),
  ("c4\x27", [(Dir.odr, Dir.SW), (Dir.odl, Dir.NW)]),
  ("c5\x27", [(Dir.odr, Dir.SW), (Dir.odl, Dir.NW)]),
  ("d3\x27", [(Dir.odr, Dir.SE), (Dir.odl, Dir.SW)]),
  ("d6\x27", [(Dir.odr, Dir.NW), (Dir.odl, Dir.NE)]),
  ("e3\x27", [(Dir.odr, Dir.SE), (Dir.odl, Dir.SW)]),
  ("e6\x27", [(Dir.odr, Dir.NW), (Dir.odl, Dir.NE)]),
  ("f4\x27", [(Dir.odr, Dir.NE), (Dir.odl, Dir.SE)]),
  ("f5\x27", [(Dir.odr, Dir.NE), (Dir.odl, Dir.SE)])
]

/-- Pentagon branch table of the orthogonal engine: effective entry direction to the list of continuation directions. -/
def pentagonOrthogonalExits : List (String × List (Dir × List Dir)) := [
  ("c3", [(Dir.N, [Dir.N, Dir.cw, Dir.inw]), (Dir.E, [Dir.E, Dir.ccw, Dir.inw]), (Dir.S, [Dir.S, Dir.ccw]), (Dir.W, [Dir.W, Dir.cw]), (Dir.cw, [Dir.cw, Dir.W]), (Dir.ccw, [Dir.ccw, Dir.S]), (Dir.out, [Dir.S, Dir.W])]),
  ("c6", [(Dir.N, [Dir.N, Dir.cw]), (Dir.E, [Dir.E, Dir.cw, Dir.inw]), (Dir.S, [Dir.S, Dir.ccw, Dir.inw]), (Dir.W, [Dir.W, Dir.ccw]), (Dir.cw, [Dir.cw, Dir.N]), (Dir.ccw, [Dir.ccw, Dir.W]), (Dir.out, [Dir.N, Dir.W])]),
  ("f3", [(Dir.N, [Dir.N, Dir.ccw, Dir.inw]), (Dir.E, [Dir.E, Dir.ccw]), (Dir.S, [Dir.S, Dir.ccw]), (Dir.W, [Dir.W, Dir.cw, Dir.inw]), (Dir.cw, [Dir.cw, Dir.S]), (Dir.ccw, [Dir.ccw, Dir.E]), (Dir.out, [Dir.S, Dir.E])]),
  ("f6", [(Dir.N, [Dir.N, Dir.ccw]), (Dir.E, [Dir.E, Dir.cw]), (Dir.S, [Dir.S, Dir.cw, Dir.inw]), (Dir.W, [Dir.W, Dir.ccw, Dir.inw]), (Dir.cw, [Dir.cw, Dir.E]), (Dir.ccw, [Dir.ccw, Dir.N]), (Dir.out, [Dir.N, Dir.E])]),
  ("c3\x27", [(Dir.N, [Dir.N, Dir.cw, Dir.inw]), (Dir.E, [Dir.E, Dir.ccw, Dir.inw]), (Dir.S, [Dir.S, Dir.ccw]), (Dir.W, [Dir.W, Dir.cw]), (Dir.cw, [Dir.cw, Dir.W]), (Dir.ccw, [Dir.ccw, Dir.S]), (Dir.out, [Dir.S, Dir.W])]),
  ("c6\x27", [(Dir.N, [Dir.N, Dir.cw]), (Dir.E, [Dir.E, Dir.cw, Dir.inw]), (Dir.S, [Dir.S, Dir.ccw, Dir.inw]), (Dir.W, [Dir.W, Dir.ccw]), (Dir.cw, [Dir.cw, Dir.N]), (Dir.ccw, [Dir.ccw, Dir.W]), (Dir.out, [Dir.N, Dir.W])]),
  ("f3\x27", [(Dir.N, [Dir.N, Dir.ccw, Dir.inw]), (Dir.E, [Dir.E, Dir.ccw]), (Dir.S, [Dir.S, Dir.ccw]), (Dir.W, [Dir.W, Dir.cw, Dir.inw]), (Dir.cw, [Dir.cw, Dir.S]), (Dir.ccw, [Dir.ccw, Dir.E]), (Dir.out, [Dir.S, Dir.E])]),
  ("f6\x27", [(Dir.N, [Dir.N, Dir.ccw]), (Dir.E, [Dir.E, Dir.cw]), (Dir.S, [Dir.S, Dir.cw, Dir.inw]), (Dir.W, [Dir.W, Dir.ccw, Dir.inw]), (Dir.cw, [Dir.cw, Dir.E]), (Dir.ccw, [Dir.ccw, Dir.N]), (Dir.out, [Dir.N, Dir.E])])
]

/-- Pentagon branch table of the diagonal engine. -/
def pentagonDiagonalExits : List (String × List (Dir × List Dir)) := [
  ("c3", [(Dir.NE, [Dir.idl, Dir.idr]), (Dir.SE, [Dir.idr, Dir.SE]), (Dir.NW, [Dir.NW, Dir.idl]), (Dir.odl, [Dir.SE, Dir.SW]), (Dir.odr, [Dir.NW, Dir.SW])]),
  ("c6", [(Dir.SE, [Dir.idl, Dir.idr]), (Dir.NE, [Dir.NE, Dir.idl]), (Dir.SW, [Dir.SW, Dir.idr]), (Dir.odl, [Dir.NW, Dir.SW]), (Dir.odr, [Dir.NE, Dir.NW])]),
  ("f3", [(Dir.NW, [Dir.idl, Dir.idr]), (Dir.SW, [Dir.idl, Dir.SW]), (Dir.NE, [Dir.NE, Dir.idr]), (Dir.odl, [Dir.NE, Dir.SE]), (Dir.odr, [Dir.SW, Dir.SE])]),
  ("f6", [(Dir.SW, [Dir.idl, Dir.idr]), (Dir.NW, [Dir.NW, Dir.idr]), (Dir.SE, [Dir.SE, Dir.idl]), (Dir.odl, [Dir.NE, Dir.NW]), (Dir.odr, [Dir.SE, Dir.NE])]),
  ("c3\x27", [(Dir.NE, [Dir.idl, Dir.idr]), (Dir.SE, [Dir.idl, Dir.SE]), (Dir.NW, [Dir.NW, Dir.idr]), (Dir.odl, [Dir.NW, Dir.SW]), (Dir.odr, [Dir.SE, Dir.SW])]),
  ("c6\x27", [(Dir.SE, [Dir.idl, Dir.idr]), (Dir.NE, [Dir.NE, Dir.idr]), (Dir.SW, [Dir.SW, Dir.idl]), (Dir.odl, [Dir.NW, Dir.NE]), (Dir.odr, [Dir.SW, Dir.NW])]),
  ("f3\x27", [(Dir.NW, [Dir.idl, Dir.idr]), (Dir.SW, [Dir.idr, Dir.SW]), (Dir.NE, [Dir.NE, Dir.idl]), (Dir.odl, [Dir.SW, Dir.SE]), (Dir.odr, [Dir.NE, Dir.SE])]),
  ("f6\x27", [(Dir.SW, [Dir.idl, Dir.idr]), (Dir.NW, [Dir.NW, Dir.idl]), (Dir.SE, [Dir.SE, Dir.idr]), (Dir.odl, [Dir.NE, Dir.SE]), (Dir.odr, [Dir.NW, Dir.NE])])
]

/-- The team of a piece identifier (source `getTeamFromId`, including the
legacy white/black prefixes and the default of team 1). -/
def getTeamFromId (id : String) : Nat :=
  if strStartsWith id "team1" then 1
  else if strStartsWith id "team2" then 2
  else if strStartsWith id "team3" then 3
  else if strStartsWith id "team4" then 4
  else if strStartsWith id "white" then 1
  else if strStartsWith id "black" then 2
  else 1

/-- Board-graph lookup (`boardGraph[square]`): the node of a square, if the
square is in the authored table. -/
def boardGraph (s : String) : Option Node :=
  (graphTable.find? (fun p => p.1 == s)).map Prod.snd

/-- The squares of the authored graph. -/
def squareList : List String :=
  graphTable.map Prod.fst

/-- The fixed opposite-direction table of the source (declared identically in
the orthogonal and the knight engine). -/
def oppositeDir : Dir → Dir
  | .N => .S
  | .S => .N
  | .E => .W
  | .W => .E
  | .inw => .out
  | .out => .inw
  | .cw => .ccw
  | .ccw => .cw
  | .NW => .SE
  | .NE => .SW
  | .SW => .NE
  | .SE => .NW
  | .idl => .odr
  | .idr => .odl
  | .odl => .idr
  | .odr => .idl
  | .od => .od

/-- Did a step from `current` to `next` cross the layer boundary?  The source
compares `endsWith`-prime of the two squares. -/
def crossed (current next : String) : Bool :=
  strEndsWith current primeMark != strEndsWith next primeMark

/-- Orthogonal-engine direction resolution at a square, applied before the
edge lookup: first the `out` override, then the `in` override (the two
`if` statements at the head of `traverseLine`; the knight engine runs the
same two statements in `moveOneSquare`). -/
def lineRemap (current : String) (d : Dir) : Dir :=
  let d1 := match lookupStr lineOutDir current with
    | some r => if d == Dir.out then r else d
    | none => d
  match lookupStr lineInDir current with
  | some r => if d1 == r then Dir.inw else d1
  | none => d1

/-- Diagonal-engine direction resolution: the `inDir` table first, then the
`outDir` table (the two guarded rewrites at the head of `traverseDiagonal`). -/
def diagRemap (current : String) (d : Dir) : Dir :=
  let d1 := match lookupStr diagInDir current with
    | some tbl => (dirMapLookup tbl d).getD d
    | none => d
  match lookupStr diagOutDir current with
  | some tbl => (dirMapLookup tbl d1).getD d1
  | none => d1

/-- Layer-crossing direction adjustment of the diagonal engine: only `idl`
and `idr` change (to `odl` / `odr`); every other direction continues
unchanged (`traverseDiagonal`, the `nextDir` computation). -/
def diagCross : Dir → Dir
  | .idl => .odl
  | .idr => .odr
  | d => d

/-- The parameters in which the two sliding traversals differ: the per-square
direction resolution, the direction adjustment after a layer crossing, the
pentagon branch table, and whether the pentagon lookup uses the incoming
(pre-adjustment) direction. -/
structure TravParams where
  remap : String → Dir → Dir
  cross : Dir → Dir
  pent : String → Option (List (Dir × List Dir))
  pentUsesPre : Bool

/-- Parameters of `traverseLine` (rook lines): full `oppositeDir` inversion on
a crossing, pentagon lookup by the post-inversion direction. -/
def lineParams : TravParams :=
  { remap := lineRemap
    cross := oppositeDir
    pent := lookupStr pentagonOrthogonalExits
    pentUsesPre := false }

/-- Parameters of `traverseDiagonal` (bishop lines): only `idl`/`idr` are
adjusted on a crossing, and the pentagon lookup uses the incoming direction
`dir`, not the adjusted `nextDir`. -/
def diagParams : TravParams :=
  { remap := diagRemap
    cross := diagCross
    pent := lookupStr pentagonDiagonalExits
    pentUsesPre := true }

/-- Continuation directions after a traversal step has landed on `next`
coming from `current` along resolved direction `d`: the layer-crossing
adjustment followed by either the pentagon fan-out or straight continuation
(the tail of `traverseLine` / `traverseDiagonal`). -/
def contDirs (P : TravParams) (current next : String) (d : Dir) : List Dir :=
  let nd := if crossed current next then P.cross d else d
  match P.pent next with
  | some tbl => dirLookup tbl (if P.pentUsesPre then d else nd)
  | none => [nd]

/-- The accumulators of one sliding query: the `moves` set (insertion order,
no duplicates) and the `paths` map. -/
structure TravState where
  moves : List String
  paths : List (String × List String)
deriving DecidableEq, Repr

/-- Record a legal destination: `moves.add` (a set, so no duplicate) and
`paths.set` (overwriting). -/
def addMove (st : TravState) (sq : String) (path : List String) : TravState :=
  { moves := if st.moves.contains sq then st.moves else st.moves ++ [sq]
    paths := upsert st.paths sq path }

/-- The team owning the occupant of a square, from the `occupiedByTeam`
record (`Object.fromEntries` keeps the last entry for a duplicated square). -/
def occupiedByTeam (pieces : List (String × String)) (sq : String) : Option Nat :=
  ((pieces.filter (fun pr => pr.2 == sq)).getLast?).map (fun pr => getTeamFromId pr.1)

/-- One step of the sliding traversal: the body of `traverseLine` /
`traverseDiagonal` (they differ only in the `TravParams`), with `rec`
standing for the traversal at one less fuel.  The source clones the visited
set per pentagon branch; with value semantics every recursive call simply
receives the current set extended by this step's key, so the fan-out and the
straight continuation are one fold over `contDirs`. -/
def traverseStep (P : TravParams) (occ : String → Option Nat) (team : Nat)
    (rec : String → Dir → List String → List String → TravState → TravState)
    (current : String) (d : Dir) (visited path : List String) (st : TravState) :
    TravState :=
  match boardGraph current with
  | none => st
  | some node =>
    let d1 := P.remap current d
    match nodeGet node d1 with
    | none => st
    | some next =>
      let key := current ++ "-" ++ dirName d1
      if key ∈ visited then st
      else
        let newPath := path ++ [next]
        match occ next with
        | some t => if t ≠ team then addMove st next newPath else st
        | none =>
          (contDirs P current next d1).foldl
            (fun acc b => rec next b (key :: visited) newPath acc)
            (addMove st next newPath)

/-- The generic sliding traversal with explicit fuel; `slideFuel` steps are
always enough because the visited set grows at every recursive call (see
`traverse_fuel_eq`).  Written with `Nat.rec` so that applications reduce
definitionally. -/
def traverse (P : TravParams) (occ : String → Option Nat) (team : Nat)
    (fuel : Nat) : String → Dir → List String → List String → TravState → TravState :=
  Nat.rec (fun _ _ _ _ st => st) (fun _ ih => traverseStep P occ team ih) fuel

/-- Fuel that the traversal can never exhaust: one more than the number of
possible visited keys (square-direction pairs of the graph). -/
def slideFuel : Nat :=
  squareList.length * allDirs.length + 1

/-- The eight initial rook directions. -/
def orthoDirs : List Dir :=
  [.N, .S, .E, .W, .inw, .out, .cw, .ccw]

/-- The eight initial bishop directions. -/
def diagDirs : List Dir :=
  [.NE, .NW, .SE, .SW, .idl, .idr, .odl, .odr]

/-- The orthogonal sliding query at explicit fuel (rook / queen half):
one traversal per initial direction, then the start square is removed from
the moves set (`moves.delete(start)`). -/
def calcOrthoFuel (fuel : Nat) (start : String) (pieces : List (String × String))
    (team : Nat) : TravState :=
  let occ := occupiedByTeam pieces
  let res := orthoDirs.foldl
    (fun st d => traverse lineParams occ team fuel start d [] [start] st) ⟨[], []⟩
  { res with moves := res.moves.erase start }

/-- The source `calculateOrthogonalMoves`. -/
def calculateOrthogonalMoves (start : String) (pieces : List (String × String))
    (team : Nat) : TravState :=
  calcOrthoFuel slideFuel start pieces team

/-- The diagonal sliding query at explicit fuel (bishop / queen half); the
source does not delete the start square here. -/
def calcDiagFuel (fuel : Nat) (start : String) (pieces : List (String × String))
    (team : Nat) : TravState :=
  let occ := occupiedByTeam pieces
  diagDirs.foldl
    (fun st d => traverse diagParams occ team fuel start d [] [start] st) ⟨[], []⟩

/-- The source `calculateDiagonalMoves`. -/
def calculateDiagonalMoves (start : String) (pieces : List (String × String))
    (team : Nat) : TravState :=
  calcDiagFuel slideFuel start pieces team

/-- Continuation computation as the specification describes it for both
sliding engines: on a layer crossing the direction is inverted via the full
opposite-direction table, and a pentagon lookup uses the post-inversion
effective direction. -/
def specContDirs (pent : String → Option (List (Dir × List Dir)))
    (current next : String) (d : Dir) : List Dir :=
  let eff := if crossed current next then oppositeDir d else d
  match pent next with
  | some tbl => dirLookup tbl eff
  | none => [eff]

/-- Diagonal traversal parameters as the specification describes them
(the claim's reading: full inversion, post-inversion pentagon lookup). -/
def specDiagParams : TravParams :=
  { remap := diagRemap
    cross := oppositeDir
    pent := lookupStr pentagonDiagonalExits
    pentUsesPre := false }

/-- The diagonal sliding query as the specification describes it, for
comparison with the implemented `calculateDiagonalMoves`. -/
def specDiagonalMoves (start : String) (pieces : List (String × String))
    (team : Nat) : TravState :=
  let occ := occupiedByTeam pieces
  diagDirs.foldl
    (fun st d => traverse specDiagParams occ team slideFuel start d [] [start] st) ⟨[], []⟩
/-- The sixteen single-step king directions (8 planar + 4 ring + 4
ring-diagonal; the `od` direction is not among them). -/
def kingDirs : List Dir :=
  [.N, .S, .E, .W, .NE, .NW, .SE, .SW, .inw, .out, .cw, .ccw, .idl, .idr, .odl, .odr]

/-- All listed squares unoccupied (source `isPathClear`). -/
def isPathClear (occ : String → Option Nat) (sqs : List String) : Bool :=
  sqs.all (fun sq => (occ sq).isNone)

/-- The source `getCastlingPath`: walk `n` single steps in direction `d`
collecting the squares; any missing edge makes the whole walk fail (the
source returns `[]`, filtered out by the caller's length check). -/
def getCastlingPath (d : Dir) : Nat → String → Option (List String)
  | 0, _ => some []
  | n + 1, current =>
    match boardGraph current with
    | none => none
    | some node =>
      match nodeGet node d with
      | none => none
      | some next => (getCastlingPath d n next).map (fun rest => next :: rest)

/-- The source `calculateKingMoves`: one step in each of the sixteen
directions, then the castling block (evaluated only for teams 1 and 2). -/
def calculateKingMoves (start : String) (pieces : List (String × String))
    (team : Nat) (hasMoved : List (String × Bool)) : TravState :=
  let occ := occupiedByTeam pieces
  match boardGraph start with
  | none => ⟨[], []⟩
  | some node =>
    let base := kingDirs.foldl (fun st d =>
      match nodeGet node d with
      | none => st
      | some next =>
        match occ next with
        | some t => if t ≠ team then addMove st next [start, next] else st
        | none => addMove st next [start, next]) ⟨[], []⟩
    let kingIdOpt := (pieces.find? (fun pr =>
      pr.2 == start && strIncludes pr.1 "king" && getTeamFromId pr.1 == team)).map Prod.fst
    match kingIdOpt with
    | none => base
    | some kingId =>
      if ¬ ((lookupStr hasMoved kingId).getD false) ∧ team ≤ 2 then
        let startingSquare := if team == 1 then "e1" else "e8"
        let startingSquarePrime := (if team == 1 then "e1" else "e8") ++ primeMark
        if start == startingSquare || start == startingSquarePrime then
          let suffix := if strIncludes start primeMark then primeMark else ""
          let kingsideRookSquare := (if team == 1 then "h1" else "h8") ++ suffix
          let kingsideRookId := (pieces.find? (fun pr =>
            pr.2 == kingsideRookSquare && strIncludes pr.1 "rook" &&
              getTeamFromId pr.1 == team)).map Prod.fst
          let withKS :=
            match kingsideRookId with
            | none => base
            | some rid =>
              if (lookupStr hasMoved rid).getD false then base
              else
                match getCastlingPath Dir.E 2 start with
                | some [fSq, gSq] =>
                  if isPathClear occ [fSq, gSq] then addMove base gSq [start, fSq, gSq]
                  else base
                | _ => base
          let queensideRookSquare := (if team == 1 then "a1" else "a8") ++ suffix
          let queensideRookId := (pieces.find? (fun pr =>
            pr.2 == queensideRookSquare && strIncludes pr.1 "rook" &&
              getTeamFromId pr.1 == team)).map Prod.fst
          match queensideRookId with
          | none => withKS
          | some rid =>
            if (lookupStr hasMoved rid).getD false then withKS
            else
              match getCastlingPath Dir.W 3 start with
              | some [dSq, cSq, bSq] =>
                if isPathClear occ [dSq, cSq, bSq] then addMove withKS cSq [start, dSq, cSq]
                else withKS
              | _ => withKS
        else base
      else base

/-- The ring squares of the knight engine's perpendicularity rule. -/
def ringSquares : List String :=
  ["d4", "e4", "d5", "e5", "x1", "x2", "x3", "x4", "y1", "y2", "y3", "y4",
   "d4" ++ primeMark, "e4" ++ primeMark, "d5" ++ primeMark, "e5" ++ primeMark,
   "x1" ++ primeMark, "x2" ++ primeMark, "x3" ++ primeMark, "x4" ++ primeMark,
   "y1" ++ primeMark, "y2" ++ primeMark, "y3" ++ primeMark, "y4" ++ primeMark]

/-- The source `getPerpendicularDirs`: the ring-square special case, then the
`basePerpendicular` table (diagonal directions have no perpendiculars). -/
def getPerpendicularDirs (sq : String) (d : Dir) : List Dir :=
  if ringSquares.contains sq && (d == Dir.inw || d == Dir.out) then [.cw, .ccw]
  else if ringSquares.contains sq && (d == Dir.cw || d == Dir.ccw) then [.inw, .out]
  else
    match d with
    | .N | .S => [.E, .W]
    | .E | .W => [.N, .S]
    | .cw | .ccw => [.inw, .out]
    | .inw | .out => [.cw, .ccw]
    | _ => []

/-- The source `moveOneSquare` of the knight engine: one resolved step (the
knight re-declares the orthogonal `outDir`/`inDir`/`oppositeDir` tables with
identical content, so `lineRemap` and `oppositeDir` are reused), fanning out
at a pentagon square when the branch table lists exits for the arriving
direction, and continuing straight otherwise. -/
def moveOneSquare (current : String) (d : Dir) : List (String × Dir) :=
  match boardGraph current with
  | none => []
  | some node =>
    let actual := lineRemap current d
    match nodeGet node actual with
    | none => []
    | some next =>
      let nd := if crossed current next then oppositeDir actual else actual
      match lookupStr pentagonOrthogonalExits next with
      | some tbl =>
        match dirLookup tbl nd with
        | [] => [(next, nd)]
        | exits => exits.map (fun e => (next, e))
      | none => [(next, nd)]

/-- The eight primary knight directions. -/
def knightPrimaryDirs : List Dir :=
  [.N, .S, .E, .W, .inw, .out, .cw, .ccw]

/-- The candidate knight destinations with their paths: two resolved steps
along a primary direction and one step along a perpendicular of the direction
last travelled — the source's four nested loops linearised into one list, in
the same visit order.  Occupancy plays no part here. -/
def knightCandidates (start : String) : List (String × List String) :=
  knightPrimaryDirs.flatMap (fun pd =>
    (moveOneSquare start pd).flatMap (fun s1 =>
      (moveOneSquare s1.1 s1.2).flatMap (fun s2 =>
        (getPerpendicularDirs s2.1 s2.2).flatMap (fun perp =>
          (moveOneSquare s2.1 perp).map (fun s3 => (s3.1, [start, s1.1, s2.1, s3.1]))))))

/-- Record a knight destination: the moves set adds the square, and the path
is kept only for the first discovery (`if (!paths.has(destination))`). -/
def addMoveKeepPath (st : TravState) (sq : String) (path : List String) : TravState :=
  { moves := if st.moves.contains sq then st.moves else st.moves ++ [sq]
    paths := if (lookupStr st.paths sq).isSome then st.paths else st.paths ++ [(sq, path)] }

/-- The source `calculateKnightMoves`: the candidate fold with the occupancy
check applied at the destination only. -/
def calculateKnightMoves (start : String) (pieces : List (String × String))
    (team : Nat) : TravState :=
  let occ := occupiedByTeam pieces
  (knightCandidates start).foldl (fun st c =>
    match occ c.1 with
    | some t => if t ≠ team then addMoveKeepPath st c.1 c.2 else st
    | none => addMoveKeepPath st c.1 c.2) ⟨[], []⟩

/-- The outer-ring squares (Constants `OUTER_LAYER_SQUARES`). -/
def OUTER_LAYER_SQUARES : List String :=
  ["c3", "d3", "e3", "f3", "c4", "f4", "c5", "f5", "c6", "d6", "e6", "f6"]

/-- The inner-ring squares (Constants `INNER_LAYER_SQUARES`). -/
def INNER_LAYER_SQUARES : List String :=
  ["d4", "x1", "x2", "x3", "x4", "d5", "e5", "y4", "y3", "y2", "y1", "e4"]

/-- The source `calculatePawnMoves`: layer-aware forward advance, the double
advance from the team's starting ranks, diagonal and en-passant captures, and
the wormhole capture directions near ring squares.  (The promotion-rank
`forEach` at the end of the source function has no effect and is omitted.) -/
def calculatePawnMoves (start : String) (pieces : List (String × String))
    (pieceTeam : Nat) (enPassantSquare : Option String) : TravState :=
  let occ := occupiedByTeam pieces
  match boardGraph start with
  | none => ⟨[], []⟩
  | some node =>
    let isPrimeL := strIncludes start primeMark
    let forwardDir : Dir :=
      match pieceTeam with
      | 1 => if isPrimeL then .S else .N
      | 2 => if isPrimeL then .N else .S
      | 3 => if isPrimeL then .N else .S
      | 4 => if isPrimeL then .S else .N
      | _ => .N
    let startingRanks : List String :=
      match pieceTeam with
      | 1 => ["2", "7" ++ primeMark]
      | 2 => ["7", "2" ++ primeMark]
      | 3 => ["2" ++ primeMark, "7"]
      | 4 => ["7" ++ primeMark, "2"]
      | _ => ["2"]
    let isStartingRank : Bool :=
      match charAt start 1 with
      | none => false
      | some r =>
        startingRanks.contains
          (String.singleton r ++ (if strIncludes start primeMark then primeMark else ""))
    let st1 : TravState :=
      match nodeGet node forwardDir with
      | none => ⟨[], []⟩
      | some oneForward =>
        if (occ oneForward).isSome then ⟨[], []⟩
        else
          let stA := addMove ⟨[], []⟩ oneForward [start, oneForward]
          if isStartingRank then
            match boardGraph oneForward with
            | none => stA
            | some twoNode =>
              let oneForwardIsPrime := strIncludes oneForward primeMark
              let secondForwardDir : Dir :=
                if isPrimeL != oneForwardIsPrime then
                  match pieceTeam with
                  | 1 => if oneForwardIsPrime then .S else .N
                  | 2 => if oneForwardIsPrime then .N else .S
                  | 3 => if oneForwardIsPrime then .N else .S
                  | 4 => if oneForwardIsPrime then .S else .N
                  | _ => forwardDir
                else forwardDir
              match nodeGet twoNode secondForwardDir with
              | none => stA
              | some twoForward =>
                if (occ twoForward).isSome then stA
                else addMove stA twoForward [start, oneForward, twoForward]
          else stA
    let captureDirections : List Dir :=
      if forwardDir == Dir.N then [.NE, .NW]
      else if forwardDir == Dir.S then [.SE, .SW]
      else []
    let st2 := captureDirections.foldl (fun st cd =>
      match nodeGet node cd with
      | none => st
      | some captureSquare =>
        let stC :=
          match occ captureSquare with
          | some t => if t ≠ pieceTeam then addMove st captureSquare [start, captureSquare] else st
          | none => st
        match enPassantSquare with
        | some ep =>
          if captureSquare == ep then
            match charAt ep 0, charAt start 1 with
            | some epFile, some curRank =>
              let target := String.singleton epFile ++ String.singleton curRank ++
                (if isPrimeL then primeMark else "")
              match occ target with
              | some t =>
                if t ≠ pieceTeam then addMove stC captureSquare [start, captureSquare] else stC
              | none => stC
            | _, _ => stC
          else stC
        | none => stC) st1
    let stripped := replaceFirstPrime start
    let wormholeDirs : List Dir :=
      if (INNER_LAYER_SQUARES.contains stripped || OUTER_LAYER_SQUARES.contains stripped) &&
          (forwardDir == Dir.N || forwardDir == Dir.S) then [.idl, .idr, .odl, .odr]
      else []
    wormholeDirs.foldl (fun st wd =>
      match nodeGet node wd with
      | none => st
      | some wc =>
        match occ wc with
        | some t => if t ≠ pieceTeam then addMove st wc [start, wc] else st
        | none => st) st2

/-- JavaScript `Array.from(new Set([...a, ...b]))`: duplicate-free append in
first-occurrence order (used to merge the queen's two move sets). -/
def dedupAppend (a b : List String) : List String :=
  (a ++ b).foldl (fun acc x => if acc.contains x then acc else acc ++ [x]) []

/-- One move-log record (source `MoveLogEntry`; the timestamp and the
always-stale `captured` field are dropped, and `from`/`to` are spelled
`fromSq`/`toSq` since `from` is reserved in Lean). -/
structure MoveEntry where
  moveNumber : Nat
  piece : String
  fromSq : String
  toSq : String
  isWormholeMove : Bool
  isCastling : Bool
deriving DecidableEq, Repr

/-- The React state of `ChessboardScene` that the move logic reads and
writes: positions, en-passant target, the current selection with its computed
move result, the active team, the (never written) moved flags, and the move
log. -/
structure GameState where
  piecePositions : List (String × String)
  enPassantSquare : Option String
  selectedPiece : Option String
  possibleMoves : List String
  possibleMovePaths : List (String × List String)
  currentTeam : Nat
  hasMoved : List (String × Bool)
  moveHistory : List MoveEntry
deriving DecidableEq, Repr

/-- The per-piece-type dispatch of `handlePieceClick` (rook, bishop, queen,
king, pawn, knight, in the source's test order; the queen merges the two
sliding results, the path records of the diagonal half overwriting). -/
def computeMovesFor (st : GameState) (pieceId nota : String) (team : Nat) : TravState :=
  if strIncludes pieceId "rook" then calculateOrthogonalMoves nota st.piecePositions team
  else if strIncludes pieceId "bishop" then calculateDiagonalMoves nota st.piecePositions team
  else if strIncludes pieceId "queen" then
    let o := calculateOrthogonalMoves nota st.piecePositions team
    let dg := calculateDiagonalMoves nota st.piecePositions team
    { moves := dedupAppend o.moves dg.moves
      paths := dg.paths.foldl (fun acc pr => upsert acc pr.1 pr.2) o.paths }
  else if strIncludes pieceId "king" then
    calculateKingMoves nota st.piecePositions team st.hasMoved
  else if strIncludes pieceId "pawn" then
    calculatePawnMoves nota st.piecePositions team st.enPassantSquare
  else if strIncludes pieceId "knight" then calculateKnightMoves nota st.piecePositions team
  else ⟨[], []⟩

/-- The source `handlePieceClick`: clicking the selected piece deselects it;
otherwise the piece becomes selected, and — only when it belongs to the
active team — its move result is computed and stored.  (When the team check
fails the function returns early, leaving the previously stored
`possibleMoves`/`possibleMovePaths` in place.) -/
def clickPiece (st : GameState) (pieceId nota : String) : GameState :=
  if st.selectedPiece == some pieceId then
    { st with selectedPiece := none, possibleMoves := [], possibleMovePaths := [] }
  else
    let st1 := { st with selectedPiece := some pieceId }
    let team := getTeamFromId pieceId
    if team ≠ st1.currentTeam then st1
    else
      let res := computeMovesFor st1 pieceId nota team
      { st1 with possibleMoves := res.moves, possibleMovePaths := res.paths }

/-- The source `getNextTeam`. -/
def getNextTeam : Nat → Nat
  | 1 => 2
  | 2 => 3
  | 3 => 4
  | 4 => 1
  | _ => 1

/-- The net effect of `animatePieceAlongPath` on the position record: the
piece ends on the last path square, and a piece already there (any team) is
removed — the capture check of the final animation step.  The intermediate
animation frames only rewrite the moving piece's own entry, so the final
record is as written here. -/
def applyPathMove (positions : List (String × String)) (pieceId : String)
    (path : List String) : List (String × String) :=
  match path.getLast? with
  | none => positions
  | some fin =>
    let positions1 :=
      match positions.find? (fun pr => pr.2 == fin && pr.1 != pieceId) with
      | some cap => eraseKey positions cap.1
      | none => positions
    upsert positions1 pieceId fin

/-- The promotion test of `handleSquareClick`: rank 8 / rank 1 (by the rank
character) for teams 1 / 2, but file g / file b for teams 3 / 4. -/
def isPromotionDest (team : Nat) (nota : String) : Bool :=
  (team == 1 && charAt nota 1 == some '8') ||
  (team == 2 && charAt nota 1 == some '1') ||
  (team == 3 && charAt nota 0 == some 'g') ||
  (team == 4 && charAt nota 0 == some 'b')

/-- The double-advance test of `handleSquareClick`:
`Math.abs(parseInt(endRank) - parseInt(startRank)) === 2` (false whenever a
rank character is missing or not a digit, as NaN comparisons are). -/
def rankDiffTwo (a b : String) : Bool :=
  match (charAt a 1).bind digitVal, (charAt b 1).bind digitVal with
  | some x, some y => (Int.ofNat x - Int.ofNat y).natAbs == 2
  | _, _ => false

/-- The en-passant target recorded after a double advance: rank 3 for team 1,
rank 6 for team 2, none for the other teams (the source's empty `epRank`). -/
def epSquareFor (team : Nat) (nota : String) : Option String :=
  match charAt nota 0 with
  | none => none
  | some f =>
    let suffix := if strIncludes nota primeMark then primeMark else ""
    if team == 1 then some (String.singleton f ++ "3" ++ suffix)
    else if team == 2 then some (String.singleton f ++ "6" ++ suffix)
    else none

/-- The castling-detection file test of `handleSquareClick`:
`Math.abs(fromSquare.charCodeAt(0) - notation.charCodeAt(0)) === 2`. -/
def fileDiffTwo (a b : String) : Bool :=
  match charAt a 0, charAt b 0 with
  | some x, some y => (Int.ofNat x.toNat - Int.ofNat y.toNat).natAbs == 2
  | _, _ => false

/-- Castling detection of `handleSquareClick`: for a king landing on a g- or
c-file square, the co-moving rook (found by square, "rook" in the id, and
team) and its two-square path. -/
def castlingFind (positions : List (String × String)) (team : Nat) (nota : String) :
    Option (String × List String) :=
  let suffix := if strIncludes nota primeMark then primeMark else ""
  let rank := if team == 1 then "1" else if team == 2 then "8" else ""
  if strStartsWith nota "g" then
    let rookSquare := "h" ++ rank ++ suffix
    let rookDest := "f" ++ rank ++ suffix
    match (positions.find? (fun pr => pr.2 == rookSquare && strIncludes pr.1 "rook" &&
        getTeamFromId pr.1 == team)).map Prod.fst with
    | some rid => some (rid, [rookSquare, rookDest])
    | none => none
  else if strStartsWith nota "c" then
    let rookSquare := "a" ++ rank ++ suffix
    let rookDest := "d" ++ rank ++ suffix
    match (positions.find? (fun pr => pr.2 == rookSquare && strIncludes pr.1 "rook" &&
        getTeamFromId pr.1 == team)).map Prod.fst with
    | some rid => some (rid, [rookSquare, rookDest])
    | none => none
  else none

/-- The committing tail of `handleSquareClick` (everything after the
promotion early-return): castling detection, selection clearing, team
advance, the animation's net position change (king first, then the castling
rook), and the move-log append. -/
def commitMove (st : GameState) (sel nota : String) (pathN : List String)
    (team : Nat) : GameState :=
  let fromSquare := (lookupStr st.piecePositions sel).getD ""
  let castling :=
    if strIncludes sel "king" && fileDiffTwo fromSquare nota then
      castlingFind st.piecePositions team nota
    else none
  let positions1 := applyPathMove st.piecePositions sel pathN
  let positions2 :=
    match castling with
    | some pr => applyPathMove positions1 pr.1 pr.2
    | none => positions1
  { st with
    selectedPiece := none
    possibleMoves := []
    currentTeam := getNextTeam st.currentTeam
    piecePositions := positions2
    moveHistory := st.moveHistory ++ [{
      moveNumber := st.moveHistory.length + 1
      piece := sel
      fromSq := fromSquare
      toSq := pathN.getLastD ""
      isWormholeMove := strIncludes (pathN.headD "") primeMark !=
        strIncludes (pathN.getLastD "") primeMark
      isCastling := castling.isSome }] }

/-- The source `handleSquareClick` as a state transformer.  A click is
ignored unless a piece is selected and the square is in the stored move
result with a stored path.  A pawn updates the en-passant target and, on a
promotion square, is replaced by a fresh queen (its id carrying the
caller-supplied `tag` in place of `Date.now()`) with an early return — no
team advance, no log entry.  Every other move commits through `commitMove`. -/
def clickSquare (st : GameState) (nota tag : String) : GameState :=
  match st.selectedPiece with
  | none => st
  | some sel =>
    if ¬ (st.possibleMoves.contains nota) then st
    else
      match lookupStr st.possibleMovePaths nota with
      | none => st
      | some pathN =>
        let team := getTeamFromId sel
        if strIncludes sel "pawn" then
          let startNota := (lookupStr st.piecePositions sel).getD ""
          let ep := if rankDiffTwo nota startNota then epSquareFor team nota else none
          let stEp := { st with enPassantSquare := ep }
          if isPromotionDest team nota then
            let newId := "team" ++ toString team ++ "-queen-promoted-" ++ tag
            { stEp with
              piecePositions := upsert (eraseKey stEp.piecePositions sel) newId nota
              selectedPiece := none
              possibleMoves := [] }
          else commitMove stEp sel nota pathN team
        else commitMove { st with enPassantSquare := none } sel nota pathN team

/-- The initial piece layout of `ChessboardScene` (the `useState` record:
teams 1 and 2 with full back ranks, teams 3 and 4 without knights, and no
pawns — the team-1 pawn block is commented out in the source). -/
def initPositions : List (String × String) :=
  [("team1-rook-a1", "a1"), ("team1-rook-h1", "h1"),
   ("team1-bishop-c1", "c1"), ("team1-bishop-f1", "f1"),
   ("team1-knight-b1", "b1"), ("team1-knight-g1", "g1"),
   ("team1-queen-d1", "d1"), ("team1-king-e1", "e1"),
   ("team2-rook-a8", "a8"), ("team2-rook-h8", "h8"),
   ("team2-bishop-c8", "c8"), ("team2-bishop-f8", "f8"),
   ("team2-knight-b8", "b8"), ("team2-knight-g8", "g8"),
   ("team2-queen-d8", "d8"), ("team2-king-e8", "e8"),
   ("team3-rook-a1" ++ primeMark, "a1" ++ primeMark),
   ("team3-rook-h1" ++ primeMark, "h1" ++ primeMark),
   ("team3-bishop-c1" ++ primeMark, "c1" ++ primeMark),
   ("team3-bishop-f1" ++ primeMark, "f1" ++ primeMark),
   ("team3-queen-d1" ++ primeMark, "d1" ++ primeMark),
   ("team3-king-e1" ++ primeMark, "e1" ++ primeMark),
   ("team4-rook-a8" ++ primeMark, "a8" ++ primeMark),
   ("team4-rook-h8" ++ primeMark, "h8" ++ primeMark),
   ("team4-bishop-c8" ++ primeMark, "c8" ++ primeMark),
   ("team4-bishop-f8" ++ primeMark, "f8" ++ primeMark),
   ("team4-queen-d8" ++ primeMark, "d8" ++ primeMark),
   ("team4-king-e8" ++ primeMark, "e8" ++ primeMark)]

/-- The initial game state: team 1 to move, nothing selected, no en-passant
target, no moved flags, empty log. -/
def initialState : GameState :=
  { piecePositions := initPositions
    enPassantSquare := none
    selectedPiece := none
    possibleMoves := []
    possibleMovePaths := []
    currentTeam := 1
    hasMoved := []
    moveHistory := [] }

/-- The states reachable through the UI: piece clicks carry a piece id with
its current square (as the rendered pieces do), square clicks carry any
square notation and a promotion tag; `clickSquare` itself ignores squares
outside the stored move result, so every committed move was chosen from a
computed move result. -/
inductive Reachable : GameState → Prop
  | init : Reachable initialState
  | piece {st : GameState} (pid sq : String) :
      Reachable st → (pid, sq) ∈ st.piecePositions → Reachable (clickPiece st pid sq)
  | square {st : GameState} (nota tag : String) :
      Reachable st → Reachable (clickSquare st nota tag)
/-- A board holding only each team's king (plus team 1's two rooks on their
original corners), used to replay a king shuffle through the executor. -/
def castlingProbeStart : GameState :=
  { initialState with piecePositions :=
      [("team1-king-e1", "e1"), ("team1-rook-a1", "a1"), ("team1-rook-h1", "h1"),
       ("team2-king-e8", "e8"),
       ("team3-king-e1" ++ primeMark, "e1" ++ primeMark),
       ("team4-king-e8" ++ primeMark, "e8" ++ primeMark)] }

/-- Select a piece and move it: one piece click followed by one square click. -/
def execMove (st : GameState) (pid sq dst : String) : GameState :=
  clickSquare (clickPiece st pid sq) dst "0"

/-- Eight executed moves: the team-1 king steps to d1 and back to e1 while the
other kings shuffle, after which the team-1 king is re-selected. -/
def castlingProbeFinal : GameState :=
  let s := castlingProbeStart
  let s := execMove s "team1-king-e1" "e1" "d1"
  let s := execMove s "team2-king-e8" "e8" "e7"
  let s := execMove s ("team3-king-e1" ++ primeMark) ("e1" ++ primeMark) ("e2" ++ primeMark)
  let s := execMove s ("team4-king-e8" ++ primeMark) ("e8" ++ primeMark) ("e7" ++ primeMark)
  let s := execMove s "team1-king-e1" "d1" "e1"
  let s := execMove s "team2-king-e8" "e7" "e8"
  let s := execMove s ("team3-king-e1" ++ primeMark) ("e2" ++ primeMark) ("e1" ++ primeMark)
  let s := execMove s ("team4-king-e8" ++ primeMark) ("e7" ++ primeMark) ("e8" ++ primeMark)
  clickPiece s "team1-king-e1" "e1"

/-- A team-1 rook and a team-2 king, team 1 to move: the state for replaying
the stale-selection click sequence. -/
def staleProbeStart : GameState :=
  { initialState with piecePositions := [("team1-rook-a1", "a1"), ("team2-king-e8", "e8")] }

/-- Click the own rook (computing its moves), then click the enemy king, then
click a square from the rook's stored move result. -/
def staleProbeFinal : GameState :=
  clickSquare (clickPiece (clickPiece staleProbeStart "team1-rook-a1" "a1")
    "team2-king-e8" "e8") "a2" "0"

/-- The en-passant scenario: a team-1 pawn on a5, a team-2 pawn on b5 that
just double-advanced past b6 (the recorded en-passant target). -/
def epProbeStart : GameState :=
  { initialState with
      piecePositions := [("team1-pawn-a5", "a5"), ("team2-pawn-b7", "b5")]
      enPassantSquare := some "b6" }

/-- The en-passant capture executed: the team-1 pawn moves onto b6. -/
def epProbeFinal : GameState :=
  clickSquare (clickPiece epProbeStart "team1-pawn-a5" "a5") "b6" "0"

/-- A lone team-3 pawn on g4-prime, team 3 to move. -/
def promoFileProbeStart : GameState :=
  { initialState with
      piecePositions := [("team3-pawn-g", "g4" ++ primeMark)]
      currentTeam := 3 }

/-- The team-3 pawn advances one square to g5-prime (rank 5, file g). -/
def promoFileProbeFinal : GameState :=
  clickSquare (clickPiece promoFileProbeStart "team3-pawn-g" ("g4" ++ primeMark))
    ("g5" ++ primeMark) "0"

/-- A lone team-3 pawn on a7-prime, team 3 to move. -/
def promoRankProbeStart : GameState :=
  { initialState with
      piecePositions := [("team3-pawn-a", "a7" ++ primeMark)]
      currentTeam := 3 }

/-- The team-3 pawn advances to a8-prime, the far rank on the mirror layer. -/
def promoRankProbeFinal : GameState :=
  clickSquare (clickPiece promoRankProbeStart "team3-pawn-a" ("a7" ++ primeMark))
    ("a8" ++ primeMark) "0"

/-- Continuation computation of the diagonal engine as amended: on a layer
crossing only idl and idr are adjusted (to odl and odr), every other
direction continues unchanged, and a pentagon lookup uses the incoming
(pre-adjustment) direction. -/
def amendedDiagContDirs (current next : String) (d : Dir) : List Dir :=
  let eff := if crossed current next then
      (match d with
       | Dir.idl => Dir.odl
       | Dir.idr => Dir.odr
       | x => x)
    else d
  match lookupStr pentagonDiagonalExits next with
  | some tbl => dirLookup tbl d
  | none => [eff]

/-- All visited keys the traversal can ever form: one `square-dir` string per
graph square and direction. -/
def keySpace : List String :=
  squareList.flatMap (fun s => allDirs.map (fun d => s ++ "-" ++ dirName d))

/-- The number of key-space entries not yet visited: the measure that shrinks
at every recursive traversal call. -/
def remKeys (visited : List String) : Nat :=
  (keySpace.filter (fun k => decide (k ∉ visited))).length

/-- A one-pawn state with the pawn selected and its advance to a8 stored. -/
def promoWitnessState : GameState :=
  { initialState with
      piecePositions := [("team1-pawn-a7", "a7")]
      selectedPiece := some "team1-pawn-a7"
      possibleMoves := ["a8"]
      possibleMovePaths := [("a8", ["a7", "a8"])] }

/-- The position record has no duplicate piece ids. -/
def KeysNodup (l : List (String × String)) : Prop :=
  (l.map Prod.fst).Nodup

/-- The position record has no duplicate squares: at most one piece per
square. -/
def ValsNodup (l : List (String × String)) : Prop :=
  (l.map Prod.snd).Nodup

/-- The executor invariant: duplicate-free ids and squares, no pawn ids on
the board, and no pawn selected. -/
def Inv (st : GameState) : Prop :=
  KeysNodup st.piecePositions ∧ ValsNodup st.piecePositions ∧
  (∀ pr ∈ st.piecePositions, strIncludes pr.1 "pawn" = false) ∧
  (∀ sel, st.selectedPiece = some sel → strIncludes sel "pawn" = false)
/-! ## Scenario states used by the concrete claim evaluations -/

/-! ## Claim theorems (concrete evaluations) -/

/-- C1, counterexample: the claim's step rule fails on the diagonal engine.
The edge x1 to x2-prime along idl crosses the layer boundary and x2-prime is
not a pentagon square, so the claim prescribes continuation in
oppositeDir idl = odr; the implementation continues in odl.  Consequently a
whole bishop query differs from the claim's prediction: from x1 on an empty
board the implementation reaches c5-prime, the claim-faithful traversal does
not. -/
theorem c1_step_rule_counterexample :
    (boardGraph "x1").bind (fun n => nodeGet n Dir.idl) = some ("x2" ++ primeMark) ∧
    crossed "x1" ("x2" ++ primeMark) = true ∧
    lookupStr pentagonDiagonalExits ("x2" ++ primeMark) = none ∧
    oppositeDir Dir.idl = Dir.odr ∧
    specContDirs (lookupStr pentagonDiagonalExits) "x1" ("x2" ++ primeMark) Dir.idl =
      [Dir.odr] ∧
    contDirs diagParams "x1" ("x2" ++ primeMark) Dir.idl = [Dir.odl] ∧
    (Dir.odl == Dir.odr) = false ∧
    ((calculateDiagonalMoves "x1" [] 1).moves.contains ("c5" ++ primeMark)) = true ∧
    ((specDiagonalMoves "x1" [] 1).moves.contains ("c5" ++ primeMark)) = false := by
  decide

/-- C1, amended: the orthogonal engine follows the claimed step rule exactly
(full opposite-direction inversion on a crossing, pentagon lookup by the
post-inversion effective direction); the diagonal engine instead adjusts only
idl/idr on a crossing and looks pentagon branches up by the incoming
direction. -/
theorem c1_step_rule_amended :
    (∀ current next d,
      contDirs lineParams current next d =
        specContDirs (lookupStr pentagonOrthogonalExits) current next d) ∧
    (∀ current next d,
      contDirs diagParams current next d = amendedDiagContDirs current next d) := by
  exact ⟨fun _ _ _ => rfl, fun _ _ _ => rfl⟩

/-- C4, failing run: the executor never records a piece as moved
(`setHasMoved` is never called), so after the team-1 king has demonstrably
moved through the executor (two king entries in the move log), re-selecting
it on e1 still offers both castling destinations g1 and c1; the claim says
neither should appear. -/
theorem c4_castling_reset_bug :
    ((castlingProbeFinal.moveHistory.map (fun e => e.piece)).contains "team1-king-e1") = true ∧
    castlingProbeFinal.moveHistory.length = 8 ∧
    castlingProbeFinal.hasMoved = [] ∧
    (castlingProbeFinal.possibleMoves.contains "g1") = true ∧
    (castlingProbeFinal.possibleMoves.contains "c1") = true := by
  decide

/-- C5, failing run: selecting an own rook, then clicking an enemy piece
(which the handler selects before its team check, leaving the rook's move
list in place), then clicking a square from that stale list moves the
enemy piece: the team-2 king is relocated to a2 and the turn is consumed,
instead of the rejected-without-mutation behaviour the claim describes. -/
theorem c5_illegal_move_executed :
    getTeamFromId "team2-king-e8" = 2 ∧
    (clickPiece (clickPiece staleProbeStart "team1-rook-a1" "a1")
      "team2-king-e8" "e8").currentTeam = 1 ∧
    lookupStr staleProbeFinal.piecePositions "team2-king-e8" = some "a2" ∧
    staleProbeFinal.currentTeam = 2 := by
  decide

/-- C7, failing run: executing the en-passant capture (pawn a5 takes on the
recorded target b6) moves the capturing pawn but leaves the bypassed team-2
pawn on b5 — the executor removes occupants of the destination square only,
never the bypassed pawn. -/
theorem c7_en_passant_no_removal :
    ((clickPiece epProbeStart "team1-pawn-a5" "a5").possibleMoves.contains "b6") = true ∧
    lookupStr epProbeFinal.piecePositions "team1-pawn-a5" = some "b6" ∧
    lookupStr epProbeFinal.piecePositions "team2-pawn-b7" = some "b5" ∧
    epProbeFinal.currentTeam = 2 := by
  decide

/-- C8, failing runs: for team 3 the executor promotes by destination file,
not rank.  A pawn moving to g5-prime (rank 5, not a far rank) is replaced by
a fresh queen with no turn advance; a pawn reaching a8-prime (the far rank
the claim names) is not promoted at all and the turn passes. -/
theorem c8_promotion_rank_bug :
    lookupStr promoFileProbeFinal.piecePositions "team3-pawn-g" = none ∧
    lookupStr promoFileProbeFinal.piecePositions "team3-queen-promoted-0" =
      some ("g5" ++ primeMark) ∧
    promoFileProbeFinal.currentTeam = 3 ∧
    lookupStr promoRankProbeFinal.piecePositions "team3-pawn-a" =
      some ("a8" ++ primeMark) ∧
    lookupStr promoRankProbeFinal.piecePositions "team3-queen-promoted-0" = none ∧
    promoRankProbeFinal.currentTeam = 4 := by
  decide

/-! ## Termination of the sliding traversal (fuel stabilisation) -/

/-- Unfolding of the traversal at zero fuel. -/
theorem traverse_zero (P : TravParams) (occ : String → Option Nat) (team : Nat) :
    traverse P occ team 0 = fun _ _ _ _ st => st := rfl

/-- Unfolding of the traversal at positive fuel. -/
theorem traverse_succ (P : TravParams) (occ : String → Option Nat) (team fuel : Nat) :
    traverse P occ team (fuel + 1) = traverseStep P occ team (traverse P occ team fuel) := rfl

/-- Every direction is in `allDirs`. -/
theorem mem_allDirs (d : Dir) : d ∈ allDirs := by
  cases d <;> simp [allDirs]

/-- A square with a graph node is in the square list. -/
theorem mem_squareList_of_boardGraph {s : String} {n : Node}
    (h : boardGraph s = some n) : s ∈ squareList := by
  unfold boardGraph at h
  cases hf : graphTable.find? (fun p => p.1 == s) with
  | none => rw [hf] at h; cases h
  | some p =>
    have hmem := List.mem_of_find?_eq_some hf
    have hkey : p.1 = s := by simpa using List.find?_some hf
    exact hkey ▸ List.mem_map_of_mem Prod.fst hmem

/-- The visited key of a step from a graph square is in the key space. -/
theorem mem_keySpace {s : String} {n : Node} (h : boardGraph s = some n) (d : Dir) :
    (s ++ "-" ++ dirName d) ∈ keySpace := by
  unfold keySpace
  exact List.mem_flatMap.mpr
    ⟨s, mem_squareList_of_boardGraph h, List.mem_map_of_mem _ (mem_allDirs d)⟩

/-- Filtering by a stronger predicate yields at most as many elements. -/
theorem length_filter_le_of_imp {α : Type} {p q : α → Bool}
    (himp : ∀ a, q a = true → p a = true) :
    ∀ l : List α, (l.filter q).length ≤ (l.filter p).length := by
  intro l
  induction l with
  | nil => exact Nat.le_refl _
  | cons a as ih =>
    rw [List.filter_cons, List.filter_cons]
    cases hq : q a with
    | true => rw [himp a hq]; simpa using ih
    | false =>
      cases hp : p a with
      | true => simpa using Nat.le_succ_of_le ih
      | false => simpa using ih

/-- Filtering by a strictly stronger predicate (witnessed by an element kept
by `p` but dropped by `q`) yields strictly fewer elements. -/
theorem length_filter_lt_of_imp {α : Type} {p q : α → Bool}
    (himp : ∀ a, q a = true → p a = true) :
    ∀ {l : List α} (x : α), x ∈ l → p x = true → q x = false →
      (l.filter q).length < (l.filter p).length := by
  intro l
  induction l with
  | nil => intro x hx; cases hx
  | cons a as ih =>
    intro x hx hpx hqx
    rw [List.filter_cons, List.filter_cons]
    rcases List.mem_cons.mp hx with rfl | hmem
    · rw [hqx, hpx]
      simpa using Nat.lt_succ_of_le (length_filter_le_of_imp himp as)
    · cases hq : q a with
      | true =>
        rw [himp a hq]
        simpa using ih x hmem hpx hqx
      | false =>
        cases hp : p a with
        | true => simpa using Nat.lt_succ_of_lt (ih x hmem hpx hqx)
        | false => simpa using ih x hmem hpx hqx

/-- Visiting a fresh key from the key space shrinks the measure. -/
theorem remKeys_cons_lt {key : String} {visited : List String}
    (hks : key ∈ keySpace) (hnv : key ∉ visited) :
    remKeys (key :: visited) < remKeys visited := by
  unfold remKeys
  refine length_filter_lt_of_imp ?_ key hks ?_ ?_
  · intro a ha
    have : a ∉ key :: visited := of_decide_eq_true ha
    exact decide_eq_true (fun hmem => this (List.mem_cons_of_mem _ hmem))
  · exact decide_eq_true hnv
  · exact decide_eq_false (fun hnot => hnot (List.mem_cons_self key visited))

/-- Two folds agree when the folded functions agree on the list's elements. -/
theorem foldl_congr_mem {α β : Type} {l : List β} {f g : α → β → α}
    (h : ∀ a : α, ∀ b ∈ l, f a b = g a b) : ∀ init, l.foldl f init = l.foldl g init := by
  induction l with
  | nil => intro init; rfl
  | cons b bs ih =>
    intro init
    rw [List.foldl_cons, List.foldl_cons, h init b (List.mem_cons_self b bs)]
    exact ih (fun a c hc => h a c (List.mem_cons_of_mem _ hc)) _

/-- Fuel stabilisation: any two fuel amounts exceeding the number of
unvisited keys produce the same traversal result — the recursion always
stops through its visited-set guard before the fuel can matter. -/
theorem traverse_fuel_eq (P : TravParams) (occ : String → Option Nat) (team : Nat) :
    ∀ (f1 f2 : Nat) (current : String) (d : Dir) (visited path : List String)
      (st : TravState), remKeys visited < f1 → remKeys visited < f2 →
      traverse P occ team f1 current d visited path st =
        traverse P occ team f2 current d visited path st := by
  intro f1
  induction f1 with
  | zero => intro f2 current d visited path st h1 _; exact absurd h1 (Nat.not_lt_zero _)
  | succ n ih =>
    intro f2 current d visited path st h1 h2
    cases f2 with
    | zero => exact absurd h2 (Nat.not_lt_zero _)
    | succ m =>
      rw [traverse_succ, traverse_succ]
      unfold traverseStep
      cases hg : boardGraph current with
      | none => rfl
      | some node =>
        dsimp only
        cases hn : nodeGet node (P.remap current d) with
        | none => rfl
        | some next =>
          dsimp only
          by_cases hv : (current ++ "-" ++ dirName (P.remap current d)) ∈ visited
          · rw [if_pos hv, if_pos hv]
          · rw [if_neg hv, if_neg hv]
            cases occ next with
            | some t => rfl
            | none =>
              dsimp only
              apply foldl_congr_mem
              intro acc b _
              have hlt := remKeys_cons_lt (mem_keySpace hg (P.remap current d)) hv
              exact ih m next b _ _ acc
                (Nat.lt_of_lt_of_le hlt (Nat.lt_succ_iff.mp h1))
                (Nat.lt_of_lt_of_le hlt (Nat.lt_succ_iff.mp h2))

/-- With nothing visited the measure is the whole key space. -/
theorem remKeys_nil : remKeys [] = keySpace.length := by
  unfold remKeys
  rw [List.filter_eq_self.mpr]
  intro a _
  exact decide_eq_true (by simp)

/-- Flat-mapping blocks of one constant length multiplies the lengths. -/
theorem length_flatMap_const {α β : Type} (l : List α) (f : α → List β) (n : Nat)
    (h : ∀ a, (f a).length = n) : (l.flatMap f).length = l.length * n := by
  induction l with
  | nil => simp
  | cons a as ih =>
    simp [List.flatMap_cons, List.length_append, ih, h a, Nat.succ_mul, Nat.add_comm]

/-- The key space has one entry per square and direction. -/
theorem keySpace_length : keySpace.length = squareList.length * allDirs.length := by
  exact length_flatMap_const _ _ _ (fun s => by simp)

/-- The default fuel exceeds the size of the whole key space. -/
theorem remKeys_nil_lt_slideFuel : remKeys [] < slideFuel := by
  rw [remKeys_nil, keySpace_length]
  exact Nat.lt_succ_self _

/-- C2: every sliding query terminates with a stable, finite result — running
either sliding computation with any amount of fuel beyond the default
changes nothing, for every starting square (ring squares included), every
occupancy, and every team.  The visited-set guard, extended per branch at
each step, makes this hold. -/
theorem c2_sliding_terminates :
    ∀ (extra : Nat) (start : String) (pieces : List (String × String)) (team : Nat),
      calcOrthoFuel (slideFuel + extra) start pieces team =
        calculateOrthogonalMoves start pieces team ∧
      calcDiagFuel (slideFuel + extra) start pieces team =
        calculateDiagonalMoves start pieces team := by
  intro extra start pieces team
  have hbig : remKeys [] < slideFuel := remKeys_nil_lt_slideFuel
  have hbig2 : remKeys [] < slideFuel + extra :=
    Nat.lt_of_lt_of_le hbig (Nat.le_add_right _ _)
  constructor
  · unfold calculateOrthogonalMoves calcOrthoFuel
    dsimp only
    rw [foldl_congr_mem
      (fun st d _ => traverse_fuel_eq lineParams (occupiedByTeam pieces) team
        (slideFuel + extra) slideFuel start d [] [start] st hbig2 hbig)]
  · unfold calculateDiagonalMoves calcDiagFuel
    dsimp only
    exact foldl_congr_mem
      (fun st d _ => traverse_fuel_eq diagParams (occupiedByTeam pieces) team
        (slideFuel + extra) slideFuel start d [] [start] st hbig2 hbig) _

/-! ## The start square never appears in a sliding result -/

/-- Bridge between boolean `contains` and membership for string lists. -/
theorem contains_iff_mem {l : List String} {a : String} : l.contains a = true ↔ a ∈ l :=
  List.elem_iff

/-- Membership in the move set after `addMove`. -/
theorem mem_addMove_iff {st : TravState} {sq m : String} {p : List String} :
    m ∈ (addMove st sq p).moves ↔ m ∈ st.moves ∨ m = sq := by
  unfold addMove
  dsimp only
  split
  · next hc =>
    constructor
    · exact Or.inl
    · rintro (h | rfl)
      · exact h
      · exact contains_iff_mem.mp hc
  · simp

/-- A fold whose steps only grow the move set grows the move set. -/
theorem foldl_moves_mono {β : Type} {l : List β} {g : TravState → β → TravState}
    (hg : ∀ acc b, b ∈ l → ∀ m, m ∈ acc.moves → m ∈ (g acc b).moves) :
    ∀ st m, m ∈ st.moves → m ∈ (l.foldl g st).moves := by
  induction l with
  | nil => intro st m hm; exact hm
  | cons b bs ih =>
    intro st m hm
    rw [List.foldl_cons]
    exact ih (fun acc c hc => hg acc c (List.mem_cons_of_mem _ hc)) _ m
      (hg st b (List.mem_cons_self b bs) m hm)

/-- The traversal only adds to the move set. -/
theorem traverse_moves_mono (P : TravParams) (occ : String → Option Nat) (team : Nat) :
    ∀ (fuel : Nat) (current : String) (d : Dir) (visited path : List String)
      (st : TravState) (m : String), m ∈ st.moves →
      m ∈ (traverse P occ team fuel current d visited path st).moves := by
  intro fuel
  induction fuel with
  | zero => intro current d visited path st m hm; exact hm
  | succ n ih =>
    intro current d visited path st m hm
    rw [traverse_succ]
    unfold traverseStep
    cases boardGraph current with
    | none => exact hm
    | some node =>
      dsimp only
      cases nodeGet node (P.remap current d) with
      | none => exact hm
      | some next =>
        dsimp only
        by_cases hv : (current ++ "-" ++ dirName (P.remap current d)) ∈ visited
        · rw [if_pos hv]; exact hm
        · rw [if_neg hv]
          cases occ next with
          | some t =>
            dsimp only
            split
            · exact mem_addMove_iff.mpr (Or.inl hm)
            · exact hm
          | none =>
            exact foldl_moves_mono (fun acc b _ => ih next b _ _ acc)
              _ m (mem_addMove_iff.mpr (Or.inl hm))

/-- A fold whose paired steps preserve move-set inclusion preserves it. -/
theorem foldl_moves_incl {β : Type} (l : List β) (g g2 : TravState → β → TravState)
    (hg : ∀ (acc acc2 : TravState) (b : β), b ∈ l →
      (∀ m, m ∈ acc.moves → m ∈ acc2.moves) →
      ∀ m, m ∈ (g acc b).moves → m ∈ (g2 acc2 b).moves) :
    ∀ (acc acc2 : TravState), (∀ m, m ∈ acc.moves → m ∈ acc2.moves) →
      ∀ m, m ∈ (l.foldl g acc).moves → m ∈ (l.foldl g2 acc2).moves := by
  induction l with
  | nil => intro acc acc2 h m hm; exact h m hm
  | cons b bs ih =>
    intro acc acc2 h m hm
    rw [List.foldl_cons] at hm ⊢
    exact ih (fun a a2 c hc => hg a a2 c (List.mem_cons_of_mem _ hc)) _ _
      (hg acc acc2 b (List.mem_cons_self b bs) h) m hm

/-- Occupancy only prunes: every move found with some occupancy (and any
team) is also found by the same traversal over an empty board. -/
theorem traverse_moves_prune (P : TravParams) (occ : String → Option Nat) (team : Nat) :
    ∀ (fuel : Nat) (current : String) (d : Dir) (visited path : List String)
      (st st' : TravState), (∀ m, m ∈ st.moves → m ∈ st'.moves) →
      ∀ m, m ∈ (traverse P occ team fuel current d visited path st).moves →
        m ∈ (traverse P (fun _ => none) 1 fuel current d visited path st').moves := by
  intro fuel
  induction fuel with
  | zero => intro current d visited path st st' h m hm; exact h m hm
  | succ n ih =>
    intro current d visited path st st' h m hm
    rw [traverse_succ] at hm ⊢
    unfold traverseStep at hm ⊢
    cases hb : boardGraph current with
    | none => rw [hb] at hm; exact h m hm
    | some node =>
      rw [hb] at hm
      dsimp only at hm ⊢
      cases hn : nodeGet node (P.remap current d) with
      | none => rw [hn] at hm; exact h m hm
      | some next =>
        rw [hn] at hm
        dsimp only at hm ⊢
        by_cases hv : (current ++ "-" ++ dirName (P.remap current d)) ∈ visited
        · rw [if_pos hv] at hm ⊢; exact h m hm
        · rw [if_neg hv] at hm ⊢
          have hstep : ∀ mv, mv ∈ (addMove st next (path ++ [next])).moves →
              mv ∈ (addMove st' next (path ++ [next])).moves := by
            intro mv hmv
            rcases mem_addMove_iff.mp hmv with hsm | rfl
            · exact mem_addMove_iff.mpr (Or.inl (h mv hsm))
            · exact mem_addMove_iff.mpr (Or.inr rfl)
          have hfold := foldl_moves_incl
            (contDirs P current next (P.remap current d))
            (fun acc b => traverse P occ team n next b
              ((current ++ "-" ++ dirName (P.remap current d)) :: visited) (path ++ [next]) acc)
            (fun acc b => traverse P (fun _ => none) 1 n next b
              ((current ++ "-" ++ dirName (P.remap current d)) :: visited) (path ++ [next]) acc)
            (fun acc acc2 b _ hincl => ih next b _ _ acc acc2 hincl)
          cases hocc : occ next with
          | some t =>
            rw [hocc] at hm
            dsimp only at hm
            refine hfold _ _ hstep m ?_
            have hstart : m ∈ (addMove st next (path ++ [next])).moves := by
              revert hm
              split
              · intro hm
                exact hm
              · intro hm
                exact mem_addMove_iff.mpr (Or.inl hm)
            exact foldl_moves_mono
              (fun acc b _ mv => traverse_moves_mono _ _ _ n next b _ _ acc mv) _ m hstart
          | none =>
            rw [hocc] at hm
            exact hfold _ _ hstep m hm

/-- The empty position list occupies nothing. -/
theorem occupiedByTeam_nil : occupiedByTeam ([] : List (String × String)) = fun _ => none :=
  funext fun _ => rfl

/-- A traversal from a square outside the graph does nothing. -/
theorem traverse_no_node {start : String} (h : boardGraph start = none)
    (P : TravParams) (occ : String → Option Nat) (team fuel : Nat) (d : Dir)
    (visited path : List String) (st : TravState) :
    traverse P occ team fuel start d visited path st = st := by
  cases fuel with
  | zero => rfl
  | succ n => rw [traverse_succ]; unfold traverseStep; rw [h]

/-- Folding a function that never changes the accumulator is the identity. -/
theorem foldl_id {α β : Type} {l : List β} {g : α → β → α}
    (hg : ∀ a b, b ∈ l → g a b = a) : ∀ init, l.foldl g init = init := by
  induction l with
  | nil => intro init; rfl
  | cons b bs ih =>
    intro init
    rw [List.foldl_cons, hg init b (List.mem_cons_self b bs)]
    exact ih (fun a c hc => hg a c (List.mem_cons_of_mem _ hc)) _

/-- On an empty board no diagonal query from any graph square finds its own
start square again (checked over the whole authored graph). -/
theorem diag_empty_board_check :
    (squareList.all fun s => !((calculateDiagonalMoves s [] 1).moves.contains s)) = true := by
  decide

/-- The traversal keeps the move set duplicate-free. -/
theorem addMove_nodup {st : TravState} {sq : String} {p : List String}
    (h : st.moves.Nodup) : (addMove st sq p).moves.Nodup := by
  unfold addMove
  dsimp only
  split
  · exact h
  · next hc =>
    have hns : sq ∉ st.moves := fun hmem => hc (contains_iff_mem.mpr hmem)
    simpa [List.nodup_append] using ⟨h, hns⟩

/-- A fold whose steps keep the move set duplicate-free keeps it so. -/
theorem foldl_moves_nodup {β : Type} {l : List β} {g : TravState → β → TravState}
    (hg : ∀ acc b, b ∈ l → acc.moves.Nodup → (g acc b).moves.Nodup) :
    ∀ st, st.moves.Nodup → (l.foldl g st).moves.Nodup := by
  induction l with
  | nil => intro st h; exact h
  | cons b bs ih =>
    intro st h
    rw [List.foldl_cons]
    exact ih (fun acc c hc => hg acc c (List.mem_cons_of_mem _ hc)) _
      (hg st b (List.mem_cons_self b bs) h)

/-- The traversal keeps the move set duplicate-free. -/
theorem traverse_moves_nodup (P : TravParams) (occ : String → Option Nat) (team : Nat) :
    ∀ (fuel : Nat) (current : String) (d : Dir) (visited path : List String)
      (st : TravState), st.moves.Nodup →
      (traverse P occ team fuel current d visited path st).moves.Nodup := by
  intro fuel
  induction fuel with
  | zero => intro current d visited path st h; exact h
  | succ n ih =>
    intro current d visited path st h
    rw [traverse_succ]
    unfold traverseStep
    cases boardGraph current with
    | none => exact h
    | some node =>
      dsimp only
      cases nodeGet node (P.remap current d) with
      | none => exact h
      | some next =>
        dsimp only
        by_cases hv : (current ++ "-" ++ dirName (P.remap current d)) ∈ visited
        · rw [if_pos hv]; exact h
        · rw [if_neg hv]
          cases occ next with
          | some t =>
            dsimp only
            split
            · exact addMove_nodup h
            · exact h
          | none =>
            exact foldl_moves_nodup (fun acc b _ => ih next b _ _ acc) _ (addMove_nodup h)

/-- C3: the starting square never appears in a sliding query's move set — the
orthogonal query deletes it explicitly, and the diagonal traversal never
returns to its start (occupancy can only prune the empty-board traversal,
which is checked square by square over the authored graph). -/
theorem c3_start_excluded :
    ∀ (start : String) (pieces : List (String × String)) (team : Nat),
      ((calculateOrthogonalMoves start pieces team).moves.contains start) = false ∧
      ((calculateDiagonalMoves start pieces team).moves.contains start) = false := by
  intro start pieces team
  constructor
  · apply Bool.not_eq_true _ |>.mp
    intro hc
    have hmem := contains_iff_mem.mp hc
    unfold calculateOrthogonalMoves calcOrthoFuel at hmem
    dsimp only at hmem
    have hnodup : (orthoDirs.foldl
        (fun st d => traverse lineParams (occupiedByTeam pieces) team slideFuel start d []
          [start] st) ⟨[], []⟩).moves.Nodup :=
      foldl_moves_nodup
        (fun acc b _ => traverse_moves_nodup lineParams (occupiedByTeam pieces) team
          slideFuel start b [] [start] acc) _ List.nodup_nil
    exact ((hnodup.mem_erase_iff).mp hmem).1 rfl
  · apply Bool.not_eq_true _ |>.mp
    intro hc
    have hmem := contains_iff_mem.mp hc
    unfold calculateDiagonalMoves calcDiagFuel at hmem
    dsimp only at hmem
    have hempty : start ∈ (calcDiagFuel slideFuel start [] 1).moves := by
      unfold calcDiagFuel
      dsimp only
      rw [occupiedByTeam_nil]
      exact foldl_moves_incl _ _ _
        (fun acc acc2 b _ hincl =>
          traverse_moves_prune diagParams (occupiedByTeam pieces) team slideFuel start b []
            [start] acc acc2 hincl)
        _ _ (fun m hm => hm) start hmem
    cases hb : boardGraph start with
    | none =>
      rw [show (calcDiagFuel slideFuel start [] 1).moves = [] from ?_] at hempty
      · cases hempty
      · unfold calcDiagFuel
        dsimp only
        rw [foldl_id (fun st d _ => traverse_no_node hb diagParams _ 1 slideFuel d [] [start] st)]
    | some node =>
      have hsl := mem_squareList_of_boardGraph hb
      have hall := List.all_eq_true.mp diag_empty_board_check start hsl
      rw [Bool.not_eq_true'] at hall
      exact (Bool.not_eq_true _).mpr hall
        (contains_iff_mem.mpr (by exact hempty))

/-! ## Knight occupancy at the final step only -/

/-- Membership after recording a knight destination. -/
theorem mem_addMoveKeepPath_iff {st : TravState} {sq m : String} {p : List String} :
    m ∈ (addMoveKeepPath st sq p).moves ↔ m ∈ st.moves ∨ m = sq := by
  unfold addMoveKeepPath
  dsimp only
  split
  · next hc =>
    constructor
    · exact Or.inl
    · rintro (h | rfl)
      · exact h
      · exact contains_iff_mem.mp hc
  · simp

/-- Membership after one candidate step of the knight fold. -/
theorem knight_step_mem (occ : String → Option Nat) (team : Nat)
    (st : TravState) (c : String × List String) (dst : String) :
    dst ∈ (match occ c.1 with
      | some t => if t ≠ team then addMoveKeepPath st c.1 c.2 else st
      | none => addMoveKeepPath st c.1 c.2).moves ↔
    dst ∈ st.moves ∨ (dst = c.1 ∧ occ dst ≠ some team) := by
  cases hocc : occ c.1 with
  | some t =>
    dsimp only
    by_cases ht : t = team
    · subst ht
      rw [if_neg (by simp)]
      constructor
      · exact Or.inl
      · rintro (h | ⟨rfl, hne⟩)
        · exact h
        · exact absurd hocc hne
    · rw [if_pos ht, mem_addMoveKeepPath_iff]
      constructor
      · rintro (h | rfl)
        · exact Or.inl h
        · exact Or.inr ⟨rfl, by rw [hocc]; exact fun hEq => ht (Option.some.inj hEq)⟩
      · rintro (h | ⟨rfl, _⟩)
        · exact Or.inl h
        · exact Or.inr rfl
  | none =>
    dsimp only
    rw [mem_addMoveKeepPath_iff]
    constructor
    · rintro (h | rfl)
      · exact Or.inl h
      · exact Or.inr ⟨rfl, by rw [hocc]; exact Option.noConfusion⟩
    · rintro (h | ⟨rfl, _⟩)
      · exact Or.inl h
      · exact Or.inr rfl

/-- Membership in the knight fold over an arbitrary candidate list. -/
theorem knight_fold_mem (occ : String → Option Nat) (team : Nat) :
    ∀ (cands : List (String × List String)) (st : TravState) (dst : String),
      dst ∈ (cands.foldl (fun st c =>
        match occ c.1 with
        | some t => if t ≠ team then addMoveKeepPath st c.1 c.2 else st
        | none => addMoveKeepPath st c.1 c.2) st).moves ↔
      dst ∈ st.moves ∨ (dst ∈ cands.map Prod.fst ∧ occ dst ≠ some team) := by
  intro cands
  induction cands with
  | nil => intro st dst; simp
  | cons c cs ih =>
    intro st dst
    rw [List.foldl_cons, ih, knight_step_mem]
    simp only [List.map_cons, List.mem_cons]
    constructor
    · rintro ((h | ⟨rfl, hne⟩) | ⟨hmem, hne⟩)
      · exact Or.inl h
      · exact Or.inr ⟨Or.inl rfl, hne⟩
      · exact Or.inr ⟨Or.inr hmem, hne⟩
    · rintro (h | ⟨rfl | hmem, hne⟩)
      · exact Or.inl (Or.inl h)
      · exact Or.inl (Or.inr ⟨rfl, hne⟩)
      · exact Or.inr ⟨hmem, hne⟩

/-- C9: a square is a knight destination exactly when it is reachable by the
occupancy-blind two-plus-one step search (`knightCandidates`, which consults
the graph only) and is not occupied by the knight's own team — occupancy is
applied solely at the final square, so own-team pieces there exclude the
move, enemies are captures, empty squares are moves, and occupants of the
two intermediate squares never block. -/
theorem c9_knight_occupancy_final_only :
    ∀ (start : String) (pieces : List (String × String)) (team : Nat) (dst : String),
      dst ∈ (calculateKnightMoves start pieces team).moves ↔
        dst ∈ (knightCandidates start).map Prod.fst ∧
          occupiedByTeam pieces dst ≠ some team := by
  intro start pieces team dst
  unfold calculateKnightMoves
  dsimp only
  rw [knight_fold_mem]
  simp

/-- C9 applied at a concrete input: the knight on b1 of the initial layout
reaches c3, a3 and d2. -/
theorem c9_knight_occupancy_final_only_witness :
    ("c3" ∈ (calculateKnightMoves "b1" initPositions 1).moves ↔
      "c3" ∈ (knightCandidates "b1").map Prod.fst ∧
        occupiedByTeam initPositions "c3" ≠ some 1) :=
  c9_knight_occupancy_final_only "b1" initPositions 1 "c3"

/-! ## The promotion branch of the executor -/

/-- C10: when a selected pawn is moved onto a promotion destination, the
executor deletes the pawn, adds a fresh `team<t>-queen-promoted-<tag>` piece
at the destination, and returns before the turn advance and the log append:
the active team and the move history are unchanged. -/
theorem c10_promotion_keeps_turn :
    ∀ (st : GameState) (sel nota tag : String) (pathN : List String),
      st.selectedPiece = some sel →
      strIncludes sel "pawn" = true →
      st.possibleMoves.contains nota = true →
      lookupStr st.possibleMovePaths nota = some pathN →
      isPromotionDest (getTeamFromId sel) nota = true →
      (clickSquare st nota tag).currentTeam = st.currentTeam ∧
      (clickSquare st nota tag).moveHistory = st.moveHistory ∧
      (clickSquare st nota tag).piecePositions =
        upsert (eraseKey st.piecePositions sel)
          ("team" ++ toString (getTeamFromId sel) ++ "-queen-promoted-" ++ tag) nota := by
  intro st sel nota tag pathN hsel hpawn hmov hpath hpromo
  unfold clickSquare
  rw [hsel]
  dsimp only
  rw [if_neg (fun hcon => hcon hmov), hpath]
  dsimp only
  rw [if_pos hpawn, if_pos hpromo]
  exact ⟨rfl, rfl, rfl⟩

/-- C10 applied at a concrete input: promoting the team-1 pawn on a7. -/
theorem c10_promotion_keeps_turn_witness :
    (clickSquare promoWitnessState "a8" "7").currentTeam = promoWitnessState.currentTeam ∧
    (clickSquare promoWitnessState "a8" "7").moveHistory = promoWitnessState.moveHistory ∧
    (clickSquare promoWitnessState "a8" "7").piecePositions =
      upsert (eraseKey promoWitnessState.piecePositions "team1-pawn-a7")
        ("team" ++ toString (getTeamFromId "team1-pawn-a7") ++ "-queen-promoted-" ++ "7")
        "a8" :=
  c10_promotion_keeps_turn promoWitnessState "team1-pawn-a7" "a8" "7" ["a7", "a8"]
    (by decide) (by decide) (by decide) (by decide) (by decide)

/-! ## Occupancy injectivity of reachable game states -/

/-- Entries of an upserted record come from the record or are the new
binding. -/
theorem mem_upsert {α : Type} {m : List (String × α)} {k : String} {v : α} :
    ∀ pr ∈ upsert m k v, pr ∈ m ∨ pr = (k, v) := by
  induction m with
  | nil =>
    intro pr hpr
    unfold upsert at hpr
    simp at hpr
    exact Or.inr hpr
  | cons p rest ih =>
    intro pr hpr
    unfold upsert at hpr
    by_cases hk : (p.1 == k) = true
    · rw [if_pos hk] at hpr
      rcases List.mem_cons.mp hpr with rfl | h
      · exact Or.inr rfl
      · exact Or.inl (List.mem_cons_of_mem _ h)
    · rw [if_neg hk] at hpr
      rcases List.mem_cons.mp hpr with rfl | h
      · exact Or.inl (List.mem_cons_self _ _)
      · rcases ih pr h with h' | h'
        · exact Or.inl (List.mem_cons_of_mem _ h')
        · exact Or.inr h'

/-- Keys of an upserted record come from the record or are the new key. -/
theorem keys_upsert {α : Type} {m : List (String × α)} {k : String} {v : α} :
    ∀ a ∈ (upsert m k v).map Prod.fst, a ∈ m.map Prod.fst ∨ a = k := by
  intro a ha
  rcases List.mem_map.mp ha with ⟨pr, hpr, rfl⟩
  rcases mem_upsert pr hpr with h | rfl
  · exact Or.inl (List.mem_map_of_mem _ h)
  · exact Or.inr rfl

/-- Values of an upserted record come from the record or are the new value. -/
theorem vals_upsert {α : Type} {m : List (String × α)} {k : String} {v : α} :
    ∀ a ∈ (upsert m k v).map Prod.snd, a ∈ m.map Prod.snd ∨ a = v := by
  intro a ha
  rcases List.mem_map.mp ha with ⟨pr, hpr, rfl⟩
  rcases mem_upsert pr hpr with h | rfl
  · exact Or.inl (List.mem_map_of_mem _ h)
  · exact Or.inr rfl

/-- Upserting keeps the keys duplicate-free. -/
theorem keysNodup_upsert {α : Type} {m : List (String × α)} {k : String} {v : α}
    (h : (m.map Prod.fst).Nodup) : ((upsert m k v).map Prod.fst).Nodup := by
  induction m with
  | nil => simp [upsert]
  | cons p rest ih =>
    rw [List.map_cons, List.nodup_cons] at h
    unfold upsert
    by_cases hk : (p.1 == k) = true
    · rw [if_pos hk]
      rw [List.map_cons, List.nodup_cons]
      exact ⟨fun hm => h.1 ((eq_of_beq hk) ▸ hm), h.2⟩
    · rw [if_neg hk]
      rw [List.map_cons, List.nodup_cons]
      refine ⟨fun hm => ?_, ih h.2⟩
      rcases keys_upsert _ hm with h' | rfl
      · exact h.1 h'
      · exact hk (beq_iff_eq.mpr rfl)

/-- Erasing a key gives a sublist. -/
theorem eraseKey_sublist {α : Type} (m : List (String × α)) (k : String) :
    List.Sublist (eraseKey m k) m := by
  induction m with
  | nil => exact List.Sublist.refl _
  | cons p rest ih =>
    unfold eraseKey
    by_cases hk : (p.1 == k) = true
    · rw [if_pos hk]; exact List.sublist_cons_self p rest
    · rw [if_neg hk]; exact ih.cons₂ p

/-- After erasing a key no surviving entry carries it (keys duplicate-free). -/
theorem eraseKey_key_ne {α : Type} {m : List (String × α)} {k : String}
    (hk : (m.map Prod.fst).Nodup) : ∀ pr ∈ eraseKey m k, pr.1 ≠ k := by
  induction m with
  | nil => intro pr hpr; simp [eraseKey] at hpr
  | cons p rest ih =>
    rw [List.map_cons, List.nodup_cons] at hk
    intro pr hpr
    unfold eraseKey at hpr
    by_cases hpk : (p.1 == k) = true
    · rw [if_pos hpk] at hpr
      intro hcontra
      refine hk.1 ?_
      rw [eq_of_beq hpk, ← hcontra]
      exact List.mem_map_of_mem Prod.fst hpr
    · rw [if_neg hpk] at hpr
      rcases List.mem_cons.mp hpr with rfl | h
      · exact fun hcontra => hpk (beq_iff_eq.mpr hcontra)
      · exact ih hk.2 pr h

/-- Entries with equal squares coincide when the squares are
duplicate-free. -/
theorem eq_of_mem_of_valsNodup {l : List (String × String)}
    (h : (l.map Prod.snd).Nodup) :
    ∀ x ∈ l, ∀ y ∈ l, x.2 = y.2 → x = y := by
  induction l with
  | nil => intro x hx; cases hx
  | cons p rest ih =>
    rw [List.map_cons, List.nodup_cons] at h
    intro x hx y hy hxy
    rcases List.mem_cons.mp hx with rfl | hx' <;> rcases List.mem_cons.mp hy with rfl | hy'
    · rfl
    · exact absurd (hxy ▸ List.mem_map_of_mem Prod.snd hy') h.1
    · exact absurd (hxy ▸ List.mem_map_of_mem Prod.snd hx') h.1
    · exact ih h.2 x hx' y hy' hxy

/-- Upserting a value no surviving entry (of another key) carries keeps the
squares duplicate-free. -/
theorem valsNodup_upsert {m : List (String × String)} {k v : String}
    (hk : (m.map Prod.fst).Nodup) (hv : (m.map Prod.snd).Nodup)
    (hfree : ∀ pr ∈ m, pr.1 ≠ k → pr.2 ≠ v) :
    ((upsert m k v).map Prod.snd).Nodup := by
  induction m with
  | nil => simp [upsert]
  | cons p rest ih =>
    rw [List.map_cons, List.nodup_cons] at hk hv
    unfold upsert
    by_cases hpk : (p.1 == k) = true
    · rw [if_pos hpk]
      rw [List.map_cons, List.nodup_cons]
      refine ⟨fun hm => ?_, hv.2⟩
      rcases List.mem_map.mp hm with ⟨pr, hpr, hpr2⟩
      have hne : pr.1 ≠ k := by
        intro hc
        refine hk.1 ?_
        rw [eq_of_beq hpk, ← hc]
        exact List.mem_map_of_mem Prod.fst hpr
      exact hfree pr (List.mem_cons_of_mem _ hpr) hne hpr2
    · rw [if_neg hpk]
      rw [List.map_cons, List.nodup_cons]
      refine ⟨fun hm => ?_, ih hk.2 hv.2
        (fun pr hpr hne => hfree pr (List.mem_cons_of_mem _ hpr) hne)⟩
      rcases vals_upsert _ hm with h' | rfl
      · exact hv.1 h'
      · exact hfree p (List.mem_cons_self _ _) (fun hc => hpk (beq_iff_eq.mpr hc)) rfl

/-- Entries after the animation's net position change come from the old
record or belong to the moved piece. -/
theorem mem_applyPathMove {positions : List (String × String)} {pid : String}
    {path : List String} :
    ∀ pr ∈ applyPathMove positions pid path, pr ∈ positions ∨ pr.1 = pid := by
  unfold applyPathMove
  cases path.getLast? with
  | none => exact fun pr hpr => Or.inl hpr
  | some fin =>
    dsimp only
    cases positions.find? (fun pr => pr.2 == fin && pr.1 != pid) with
    | some cap =>
      dsimp only
      intro pr hpr
      rcases mem_upsert pr hpr with h | rfl
      · exact Or.inl ((eraseKey_sublist positions cap.1).mem h)
      · exact Or.inr rfl
    | none =>
      dsimp only
      intro pr hpr
      rcases mem_upsert pr hpr with h | rfl
      · exact Or.inl h
      · exact Or.inr rfl

/-- The animation's net position change keeps ids and squares
duplicate-free. -/
theorem applyPathMove_nodup {positions : List (String × String)} (pid : String)
    (path : List String) (hk : KeysNodup positions) (hv : ValsNodup positions) :
    KeysNodup (applyPathMove positions pid path) ∧
      ValsNodup (applyPathMove positions pid path) := by
  unfold applyPathMove
  cases path.getLast? with
  | none => exact ⟨hk, hv⟩
  | some fin =>
    dsimp only
    cases hf : positions.find? (fun pr => pr.2 == fin && pr.1 != pid) with
    | some cap =>
      dsimp only
      have hcapfact := List.find?_some hf
      rw [Bool.and_eq_true] at hcapfact
      have hcap2 : cap.2 = fin := eq_of_beq hcapfact.1
      have hk1 : KeysNodup (eraseKey positions cap.1) :=
        ((eraseKey_sublist positions cap.1).map Prod.fst).nodup hk
      have hv1 : ValsNodup (eraseKey positions cap.1) :=
        ((eraseKey_sublist positions cap.1).map Prod.snd).nodup hv
      refine ⟨keysNodup_upsert hk1, valsNodup_upsert hk1 hv1 ?_⟩
      intro pr hpr _ hcontra
      have hprmem : pr ∈ positions := (eraseKey_sublist positions cap.1).mem hpr
      have hcapmem : cap ∈ positions := List.mem_of_find?_eq_some hf
      have : pr = cap :=
        eq_of_mem_of_valsNodup hv pr hprmem cap hcapmem (hcontra.trans hcap2.symm)
      exact eraseKey_key_ne hk pr hpr (this ▸ rfl)
    | none =>
      dsimp only
      refine ⟨keysNodup_upsert hk, valsNodup_upsert hk hv ?_⟩
      intro pr hpr hne hcontra
      have := List.find?_eq_none.mp hf pr hpr
      rw [Bool.and_eq_true] at this
      exact this ⟨beq_iff_eq.mpr hcontra, by simpa using hne⟩

/-- A rook id found by square lookup is a piece of the record. -/
theorem find_rook_mem {positions : List (String × String)}
    {fn : String × String → Bool} {rid : String}
    (heq : (positions.find? fn).map Prod.fst = some rid) :
    ∃ sq, (rid, sq) ∈ positions := by
  rcases Option.map_eq_some'.mp heq with ⟨pr, hf, hpr1⟩
  exact ⟨pr.2, by rw [← hpr1]; exact List.mem_of_find?_eq_some hf⟩

/-- A castling rook id found by the executor is a piece of the record. -/
theorem castlingFind_mem {positions : List (String × String)} {team : Nat}
    {nota rid : String} {rpath : List String}
    (h : castlingFind positions team nota = some (rid, rpath)) :
    ∃ sq, (rid, sq) ∈ positions := by
  unfold castlingFind at h
  dsimp only at h
  split at h
  · split at h
    · rename_i rid2 heq
      rw [Option.some.injEq] at h
      have hre : rid2 = rid := congrArg Prod.fst h
      exact find_rook_mem (hre ▸ heq)
    · cases h
  · split at h
    · split at h
      · rename_i rid2 heq
        rw [Option.some.injEq] at h
        have hre : rid2 = rid := congrArg Prod.fst h
        exact find_rook_mem (hre ▸ heq)
      · cases h
    · cases h

/-- The committing tail of a square click preserves the invariant when the
selected piece is not a pawn. -/
theorem inv_commitMove (st : GameState) (sel nota : String) (pathN : List String)
    (team : Nat) (hk : KeysNodup st.piecePositions) (hv : ValsNodup st.piecePositions)
    (hp : ∀ pr ∈ st.piecePositions, strIncludes pr.1 "pawn" = false)
    (selNotPawn : strIncludes sel "pawn" = false) :
    Inv (commitMove st sel nota pathN team) := by
  unfold commitMove
  dsimp only
  have h1 := applyPathMove_nodup sel pathN hk hv
  have hp1 : ∀ pr ∈ applyPathMove st.piecePositions sel pathN,
      strIncludes pr.1 "pawn" = false ∨ pr.1 = sel := by
    intro pr hpr
    rcases mem_applyPathMove pr hpr with h | h
    · exact Or.inl (hp pr h)
    · exact Or.inr h
  split
  · rename_i pr0 heq
    have h2 := applyPathMove_nodup pr0.1 pr0.2 h1.1 h1.2
    refine ⟨h2.1, h2.2, ?_, fun s hcontra => Option.noConfusion hcontra⟩
    intro pr hpr
    rcases mem_applyPathMove pr hpr with hmem | hpid
    · rcases hp1 pr hmem with h | h
      · exact h
      · exact h ▸ selNotPawn
    · have hridmem : ∃ sq, (pr0.1, sq) ∈ st.piecePositions := by
        revert heq
        split
        · exact fun heq => castlingFind_mem heq
        · intro heq; cases heq
      rcases hridmem with ⟨sq, hsq⟩
      exact hpid ▸ hp (pr0.1, sq) hsq
  · refine ⟨h1.1, h1.2, ?_, fun s hcontra => Option.noConfusion hcontra⟩
    intro pr hpr
    rcases hp1 pr hpr with h | h
    · exact h
    · exact h ▸ selNotPawn

/-- Selecting a piece (one that is on the board, as every rendered piece is)
preserves the invariant: positions are untouched and the new selection is a
board id. -/
theorem inv_clickPiece {st : GameState} {pid sq : String} (h : Inv st)
    (hmem : (pid, sq) ∈ st.piecePositions) : Inv (clickPiece st pid sq) := by
  unfold clickPiece
  split
  · exact ⟨h.1, h.2.1, h.2.2.1, fun s hc => Option.noConfusion hc⟩
  · dsimp only
    split
    · refine ⟨h.1, h.2.1, h.2.2.1, fun s hc => ?_⟩
      rw [Option.some.injEq] at hc
      exact hc ▸ h.2.2.1 (pid, sq) hmem
    · refine ⟨h.1, h.2.1, h.2.2.1, fun s hc => ?_⟩
      rw [Option.some.injEq] at hc
      exact hc ▸ h.2.2.1 (pid, sq) hmem

/-- A square click preserves the invariant: ignored clicks change nothing,
the promotion branch is unreachable without pawn ids, and a committed move
only erases a piece and re-places the mover (and the castling rook). -/
theorem inv_clickSquare {st : GameState} (nota tag : String) (h : Inv st) :
    Inv (clickSquare st nota tag) := by
  unfold clickSquare
  cases hsel : st.selectedPiece with
  | none => exact h
  | some sel =>
    dsimp only
    split
    · exact h
    · split
      · exact h
      · rename_i pathN heq
        have hselp : strIncludes sel "pawn" = false := h.2.2.2 sel hsel
        rw [hselp, if_neg Bool.false_ne_true]
        exact inv_commitMove _ sel nota pathN _ h.1 h.2.1 h.2.2.1 hselp

/-- The initial layout satisfies the invariant. -/
theorem inv_initialState : Inv initialState :=
  ⟨by unfold KeysNodup; decide, by unfold ValsNodup; decide, by decide,
   fun _ hc => Option.noConfusion hc⟩

/-- Every reachable state satisfies the invariant. -/
theorem inv_reachable : ∀ st : GameState, Reachable st → Inv st := by
  intro st h
  induction h with
  | init => exact inv_initialState
  | piece pid sq hr hmem ih => exact inv_clickPiece ih hmem
  | square nota tag hr ih => exact inv_clickSquare nota tag ih

/-- C6: in every game state reachable from the initial layout through the
click handlers (whose committed moves are always drawn from a computed move
result), the occupancy map is injective — no two pieces ever share a
square. -/
theorem c6_occupancy_injective :
    ∀ st : GameState, Reachable st → (st.piecePositions.map Prod.snd).Nodup :=
  fun st h => (inv_reachable st h).2.1

/-- C6 applied at a concrete reachable state: the initial layout itself. -/
theorem c6_occupancy_injective_witness :
    (initialState.piecePositions.map Prod.snd).Nodup :=
  c6_occupancy_injective initialState Reachable.init

end WormholeChess
